import Mathlib

/-!
Verification of the Murf TTS streaming client (src/src/pipecat_murf_tts/tts.py).

The service is embedded shallowly: the mutable fields of MurfTTSService become
an explicit `ServiceState`, and each coroutine of the source becomes a pure
function from a state (plus an `Env` describing the outcomes of the fallible
external operations: websocket connect, websocket send, context allocation,
and the uuid generator) to a new state together with the list of observable
effects it performs (frames pushed downstream, error notifications, websocket
sends, connect and close invocations, registry operations).

Operations of the pipecat base class AudioContextWordTTSService (the audio
context registry and the metrics timers) are not part of this repository;
they are modelled from the spec where noted.
-/

namespace MurfTTS

/-- A minimal JSON value, rich enough for the outbound protocol messages the
service builds (Synthesize, End-of-turn, Clear). -/
inductive Json where
  | str (s : String)
  | num (n : Int)
  | bool (b : Bool)
  | null
  | obj (fields : List (String × Json))

/-- The settings dictionary built in the constructor from InputParams. Keys of
self dot underscore settings in the source, with the Python value None modelled
as Option.none. The pronunciation dictionary is never None in the settings
(the constructor replaces None by the empty dict). -/
structure Settings where
  voice_id : Option String
  style : Option String
  rate : Option Int
  pitch : Option Int
  pronunciation_dictionary : List (String × List (String × String))
  variation : Option Int
  multi_native_locale : Option String
  model : Option String
  sample_rate : Option Nat
  channel_type : Option String
  format : Option String
  deriving DecidableEq

/-- Modelled from the spec: a settings-update call carries a partial field set
(a mapping of setting keys to new values); a field of the update is `some v`
exactly when the corresponding key is present in the mapping. The base class
update (super()._update_settings, not in this repository) assigns each
provided value to the settings dictionary. -/
structure SettingsUpdate where
  voice_id : Option String := none
  style : Option String := none
  rate : Option Int := none
  pitch : Option Int := none
  pronunciation_dictionary : Option (List (String × List (String × String))) := none
  variation : Option Int := none
  multi_native_locale : Option String := none
  model : Option String := none
  sample_rate : Option Nat := none
  channel_type : Option String := none
  format : Option String := none
  deriving DecidableEq

/-- A PCM audio frame as appended to an audio context
(TTSAudioRawFrame with audio bytes, sample rate and channel count). -/
structure AudioFrame where
  audio : List Nat
  sampleRate : Nat
  numChannels : Nat
  deriving DecidableEq

/-- Downstream frames pushed with push_frame
(TTSStartedFrame, TTSTextFrame, TTSStoppedFrame). -/
inductive Frame where
  | started
  | text (s : String) (aggregatedBy : String)
  | stopped
  deriving DecidableEq

/-- Observable effects of one operation, in program order. -/
inductive Effect where
  | frame (f : Frame)
  | pushError (msg : String)
  | send (m : Json)
  | connectEv (url : String)
  | closeEv
  | cancelTask
  | createCtx (id : String)
  | removeCtx (id : String)
  | appendAudio (id : String) (f : AudioFrame)

/-- The context_id field of an inbound JSON message: absent, a string value,
or present with a non-string value. -/
inductive CtxField where
  | absent
  | str (s : String)
  | nonStr
  deriving DecidableEq

/-- An inbound JSON message, as probed by _process_json_message: the
context_id field, and the error, audio and final keys (None when absent). -/
structure InMsg where
  ctx : CtxField
  error : Option String
  audio : Option String
  final : Option Bool
  deriving DecidableEq

/-- A raw inbound websocket message: a string that parses as JSON, a string
that fails json.loads, or a non-string (bytes) message. -/
inductive RawMsg where
  | text (m : InMsg)
  | badJson
  | nonText
  deriving DecidableEq

/-- Outcomes of the fallible external operations during one call: whether
websocket_connect succeeds, whether a send on an open websocket succeeds,
whether create_audio_context succeeds, and the uuid the generator returns. -/
structure Env where
  connectOk : Bool
  sendOk : Bool
  createOk : Bool
  freshId : String
  deriving DecidableEq

/-- The mutable state of a MurfTTSService instance: the settings dictionary,
the context id, the websocket (none = no object; some b with b true when the
connection state is OPEN), the receive task flag, the audio context registry
of the base class (association list id to buffer), the metrics timer flags,
the base-class sample_rate property, and the construction-time url. -/
structure ServiceState where
  settings : Settings
  contextId : Option String
  websocket : Option Bool
  receiveTask : Bool
  contexts : List (String × List AudioFrame)
  ttfbRunning : Bool
  usageRunning : Bool
  sampleRate : Nat
  url : String
  deriving DecidableEq

/-- Python truthiness of an optional string: None and the empty string are
falsy. -/
def optTruthy : Option String → Bool
  | none => false
  | some s => !s.isEmpty

/-- Modelled from the spec: audio_context_available of the base class registry
reports whether the id refers to a live context. -/
def ctxAvailable (st : ServiceState) (id : String) : Bool :=
  st.contexts.any (fun p => p.1 == id)

/-- Modelled from the spec: create_audio_context registers a fresh empty
buffer for the id. -/
def createCtxOp (st : ServiceState) (id : String) : ServiceState :=
  { st with contexts := st.contexts ++ [(id, [])] }

/-- Modelled from the spec: remove_audio_context releases the buffer for the
id; safe on an id that is already absent. -/
def removeCtxOp (st : ServiceState) (id : String) : ServiceState :=
  { st with contexts := st.contexts.filter (fun p => !(p.1 == id)) }

/-- Modelled from the spec: append_to_audio_context appends a frame to the
buffer of the given context. -/
def appendCtxOp (st : ServiceState) (id : String) (f : AudioFrame) : ServiceState :=
  { st with contexts :=
      st.contexts.map (fun p => if p.1 == id then (p.1, p.2 ++ [f]) else p) }

/-- Modelled from the spec: stop_all_metrics stops every running timer. -/
def stopAllMetrics (st : ServiceState) : ServiceState :=
  { st with ttfbRunning := false, usageRunning := false }

/-- Modelled from the spec: stop_ttfb_metrics stops the time-to-first-byte
timer. -/
def stopTtfb (st : ServiceState) : ServiceState :=
  { st with ttfbRunning := false }

/-- A websocket send succeeds exactly when a connection object exists, its
state is OPEN, and the environment does not fail the send (a send on a closed
or absent connection raises). -/
def sendSucceeds (st : ServiceState) (env : Env) : Bool :=
  st.websocket == some true && env.sendOk

/-- Python str() of an optional string, as interpolated into the URL. -/
def pyShowStr : Option String → String
  | none => "None"
  | some s => s

/-- Python str() of an optional integer, as interpolated into the URL. -/
def pyShowNat : Option Nat → String
  | none => "None"
  | some n => toString n

/-- The websocket URL built by _connect_websocket from the construction url
and the URL query settings. -/
def buildUrl (st : ServiceState) : String :=
  st.url ++ "?sample_rate=" ++ pyShowNat st.settings.sample_rate
    ++ "&format=" ++ pyShowStr st.settings.format
    ++ "&channel_type=" ++ pyShowStr st.settings.channel_type
    ++ "&model=" ++ pyShowStr st.settings.model

/-- The 6-bit value of a base64 alphabet character, none for characters
outside the alphabet (padding included). Models the standard alphabet used by
base64.b64decode. -/
def b64Val (c : Char) : Option Nat :=
  if 'A' ≤ c && c ≤ 'Z' then some (c.toNat - 65)
  else if 'a' ≤ c && c ≤ 'z' then some (c.toNat - 97 + 26)
  else if '0' ≤ c && c ≤ '9' then some (c.toNat - 48 + 52)
  else if c == '+' then some 62
  else if c == '/' then some 63
  else none

/-- Split a character list into groups of four; none when the length is not a
multiple of four (base64.b64decode raises on invalid padding). -/
def chunk4 : List Char → Option (List (List Char))
  | [] => some []
  | a :: b :: c :: d :: rest => (chunk4 rest).map (fun l => [a, b, c, d] :: l)
  | _ => none

/-- Decode one full (non-padded) base64 quantum of four characters into three
bytes. -/
def b64QuantumFull (g : List Char) : Option (List Nat) :=
  match g with
  | [a, b, c, d] =>
    match b64Val a, b64Val b, b64Val c, b64Val d with
    | some va, some vb, some vc, some vd =>
      some [va * 4 + vb / 16, (vb % 16) * 16 + vc / 4, (vc % 4) * 64 + vd]
    | _, _, _, _ => none
  | _ => none

/-- Decode the last base64 quantum, which may carry one or two padding
characters. -/
def b64QuantumLast (g : List Char) : Option (List Nat) :=
  match g with
  | [a, b, '=', '='] =>
    match b64Val a, b64Val b with
    | some va, some vb => some [va * 4 + vb / 16]
    | _, _ => none
  | [a, b, c, '='] =>
    match b64Val a, b64Val b, b64Val c with
    | some va, some vb, some vc =>
      some [va * 4 + vb / 16, (vb % 16) * 16 + vc / 4]
    | _, _, _ => none
  | _ => b64QuantumFull g

/-- Decode a list of base64 quanta; padding is admitted in the last quantum
only. -/
def b64DecodeGroups : List (List Char) → Option (List Nat)
  | [] => some []
  | [g] => b64QuantumLast g
  | g :: rest =>
    match b64QuantumFull g, b64DecodeGroups rest with
    | some bs, some more => some (bs ++ more)
    | _, _ => none

/-- Model of base64.b64decode on a string: characters outside the alphabet
and padding are discarded first (the default non-validating mode), the rest
must form whole quanta with padding only at the end; none models the raised
binascii error. -/
def b64decode (s : String) : Option (List Nat) :=
  let cs := s.data.filter (fun c => (b64Val c).isSome || c == '=')
  match chunk4 cs with
  | none => none
  | some groups => b64DecodeGroups groups

/-- The _connect_websocket coroutine: a no-op when the connection state is
already OPEN; otherwise it builds the URL and attempts websocket_connect; on
failure it logs, sets the websocket to None and pushes an error (the
exception is caught inside, nothing is raised). -/
def connectWebsocket (env : Env) (st : ServiceState) : ServiceState × List Effect :=
  if st.websocket == some true then (st, [])
  else
    let u := buildUrl st
    if env.connectOk then
      ({ st with websocket := some true }, [Effect.connectEv u])
    else
      ({ st with websocket := none },
       [Effect.connectEv u, Effect.pushError "connection error"])

/-- The _connect coroutine: connect the websocket, then start the receive
task when a websocket exists and no receive task is running. -/
def connectOp (env : Env) (st : ServiceState) : ServiceState × List Effect :=
  let p := connectWebsocket env st
  if p.1.websocket.isSome && !p.1.receiveTask then
    ({ p.1 with receiveTask := true }, p.2)
  else p

/-- The _disconnect_websocket coroutine: stop all metrics, close the
websocket if one exists, and in the finally block remove the audio context
when the tracked id is truthy and available, then clear the context id and
the websocket. -/
def disconnectWebsocket (st : ServiceState) : ServiceState × List Effect :=
  let st1 := stopAllMetrics st
  let closeEffs := if st.websocket.isSome then [Effect.closeEv] else []
  let p :=
    match st.contextId with
    | some c =>
      if !c.isEmpty && ctxAvailable st c then
        (removeCtxOp st1 c, [Effect.removeCtx c])
      else (st1, ([] : List Effect))
    | none => (st1, [])
  ({ p.1 with contextId := none, websocket := none }, closeEffs ++ p.2)

/-- The _disconnect coroutine: cancel the receive task if present, then
disconnect the websocket. -/
def disconnectOp (st : ServiceState) : ServiceState × List Effect :=
  let p1 :=
    if st.receiveTask then
      ({ st with receiveTask := false }, [Effect.cancelTask])
    else (st, ([] : List Effect))
  let p2 := disconnectWebsocket p1.1
  (p2.1, p1.2 ++ p2.2)

/-- Modelled from the spec: the base-class settings update assigns each value
provided by the partial field set to the settings dictionary. -/
def applySettings (s : Settings) (u : SettingsUpdate) : Settings :=
  { voice_id := match u.voice_id with | some v => some v | none => s.voice_id
    style := match u.style with | some v => some v | none => s.style
    rate := match u.rate with | some v => some v | none => s.rate
    pitch := match u.pitch with | some v => some v | none => s.pitch
    pronunciation_dictionary :=
      match u.pronunciation_dictionary with
      | some v => v
      | none => s.pronunciation_dictionary
    variation :=
      match u.variation with
      | some v => some v
      | none => s.variation
    multi_native_locale :=
      match u.multi_native_locale with
      | some v => some v
      | none => s.multi_native_locale
    model := match u.model with | some v => some v | none => s.model
    sample_rate := match u.sample_rate with | some v => some v | none => s.sample_rate
    channel_type := match u.channel_type with | some v => some v | none => s.channel_type
    format := match u.format with | some v => some v | none => s.format }

/-- Whether the update touches one of the URL query parameters
(sample_rate, format, channel_type, model), as tested in _update_settings. -/
def touchesUrlParams (u : SettingsUpdate) : Bool :=
  u.sample_rate.isSome || u.format.isSome || u.channel_type.isSome || u.model.isSome

/-- The _update_settings coroutine: apply the base-class update, then, when a
URL parameter was touched, disconnect and reconnect before returning. -/
def updateSettingsOp (env : Env) (st : ServiceState) (u : SettingsUpdate) :
    ServiceState × List Effect :=
  let st1 := { st with settings := applySettings st.settings u }
  if touchesUrlParams u then
    let p2 := disconnectOp st1
    let p3 := connectOp env p2.1
    (p3.1, p2.2 ++ p3.2)
  else (st1, [])

/-- The end-of-turn message built by flush_audio. -/
def endMsg (c : String) : Json :=
  Json.obj [("context_id", Json.str c), ("end", Json.bool true)]

/-- The clear message built by _handle_interruption. -/
def clearMsg (c : String) : Json :=
  Json.obj [("clear", Json.bool true), ("context_id", Json.str c)]

/-- The flush_audio coroutine: return immediately when the context id is
falsy or no websocket object exists; otherwise send the end-of-turn message,
catching and logging any send failure. -/
def flushAudio (env : Env) (st : ServiceState) : ServiceState × List Effect :=
  if !optTruthy st.contextId || st.websocket.isNone then (st, [])
  else
    match st.contextId with
    | some c =>
      if sendSucceeds st env then (st, [Effect.send (endMsg c)]) else (st, [])
    | none => (st, [])

/-- The _handle_interruption coroutine: stop all metrics; when both a context
id and a websocket object exist, remove the audio context and send the clear
message (failures are caught and logged, the remove having already taken
effect when the send raises); finally clear the context id unconditionally. -/
def handleInterruption (env : Env) (st : ServiceState) : ServiceState × List Effect :=
  let st1 := stopAllMetrics st
  let p :=
    match st.contextId with
    | some c =>
      if !c.isEmpty && st.websocket.isSome then
        let st2 := removeCtxOp st1 c
        if sendSucceeds st env then
          (st2, [Effect.removeCtx c, Effect.send (clearMsg c)])
        else (st2, [Effect.removeCtx c])
      else (st1, ([] : List Effect))
    | none => (st1, [])
  ({ p.1 with contextId := none }, p.2)

/-- The context id resolved by _process_json_message: the context_id value
when the key holds a string, the tracked context id as fallback when the key
is absent, and none when the resolved value is not a string (the isinstance
guard). -/
def resolvedCtx (st : ServiceState) (m : InMsg) : Option String :=
  match m.ctx with
  | CtxField.str s => some s
  | CtxField.nonStr => none
  | CtxField.absent => st.contextId

/-- The _process_json_message coroutine: resolve the context id; drop the
message when it is not a string or not an available context; otherwise
dispatch in order on the error key, the audio key, final being exactly true,
and unknown. -/
def processJsonMessage (st : ServiceState) (m : InMsg) : ServiceState × List Effect :=
  match resolvedCtx st m with
  | none => (st, [])
  | some c =>
    if ctxAvailable st c then
      match m.error with
      | some e =>
        ({ removeCtxOp (stopAllMetrics st) c with contextId := none },
         [Effect.frame Frame.stopped, Effect.pushError e, Effect.removeCtx c])
      | none =>
        match m.audio with
        | some a =>
          match b64decode a with
          | some bytes =>
            let fr : AudioFrame :=
              { audio := bytes, sampleRate := st.sampleRate, numChannels := 1 }
            (appendCtxOp (stopTtfb st) c fr, [Effect.appendAudio c fr])
          | none => (st, [])
        | none =>
          if m.final == some true then
            ({ removeCtxOp (stopAllMetrics st) c with contextId := none },
             [Effect.frame Frame.stopped, Effect.removeCtx c])
          else (st, [])
    else (st, [])

/-- Encode an optional string setting as JSON (None becomes null). -/
def encOptStr : Option String → Json
  | none => Json.null
  | some s => Json.str s

/-- Encode an optional integer setting as JSON (None becomes null). -/
def encOptInt : Option Int → Json
  | none => Json.null
  | some n => Json.num n

/-- Encode the pronunciation dictionary as a nested JSON object. -/
def encDict (d : List (String × List (String × String))) : Json :=
  Json.obj (d.map (fun p => (p.1, Json.obj (p.2.map (fun q => (q.1, Json.str q.2))))))

/-- The _build_voice_config_message method: the voice_config object carries
voice_id, style, rate, pitch, pronunciation_dictionary and variation, plus
multi_native_locale exactly when that setting is truthy; the outer message
carries voice_config, context_id, text and end. -/
def buildVoiceConfigMessage (st : ServiceState) (text : String) (isLast : Bool) : Json :=
  let vcBase : List (String × Json) :=
    [("voice_id", encOptStr st.settings.voice_id),
     ("style", encOptStr st.settings.style),
     ("rate", encOptInt st.settings.rate),
     ("pitch", encOptInt st.settings.pitch),
     ("pronunciation_dictionary", encDict st.settings.pronunciation_dictionary),
     ("variation", encOptInt st.settings.variation)]
  let vc :=
    if optTruthy st.settings.multi_native_locale then
      vcBase ++ [("multi_native_locale", encOptStr st.settings.multi_native_locale)]
    else vcBase
  Json.obj
    [("voice_config", Json.obj vc),
     ("context_id", encOptStr st.contextId),
     ("text", Json.str text),
     ("end", Json.bool isLast)]

/-- The except blocks of run_tts: push an error, yield a stopped frame, stop
all metrics, and when the tracked context id is truthy remove the audio
context and clear the id. -/
def exceptTeardown (msg : String) (st : ServiceState) : ServiceState × List Effect :=
  let st1 := stopAllMetrics st
  match st.contextId with
  | some c =>
    if c.isEmpty then
      (st1, [Effect.pushError msg, Effect.frame Frame.stopped])
    else
      ({ removeCtxOp st1 c with contextId := none },
       [Effect.pushError msg, Effect.frame Frame.stopped, Effect.removeCtx c])
  | none => (st1, [Effect.pushError msg, Effect.frame Frame.stopped])

/-- The send step of run_tts: serialize and send the voice config message and
start the usage metrics; on any failure (absent websocket via _get_websocket,
closed connection, or a failing send) run the inner except block. -/
def runTTSSend (env : Env) (st : ServiceState) (text : String) :
    ServiceState × List Effect :=
  let msg := buildVoiceConfigMessage st text false
  if sendSucceeds st env then
    ({ st with usageRunning := true }, [Effect.send msg])
  else
    exceptTeardown "error sending message" st

/-- The body of run_tts after the connect step: when the tracked context id
is falsy start the time-to-first-byte timer, yield a started frame, allocate
a fresh context id and create the audio context (whose failure runs the outer
except block); yield the text frame; then build and send the synthesize
message. -/
def runTTSCore (env : Env) (st1 : ServiceState) (text : String)
    (pre : List Effect) : ServiceState × List Effect :=
  if optTruthy st1.contextId then
    let p2 := runTTSSend env st1 text
    (p2.1, pre ++ [Effect.frame (Frame.text text "sentence")] ++ p2.2)
  else
    let stA := { st1 with ttfbRunning := true, contextId := some env.freshId }
    if env.createOk then
      let stB := createCtxOp stA env.freshId
      let p2 := runTTSSend env stB text
      (p2.1, pre ++
        [Effect.frame Frame.started, Effect.createCtx env.freshId,
         Effect.frame (Frame.text text "sentence")] ++ p2.2)
    else
      let p2 := exceptTeardown "error" stA
      (p2.1, pre ++
        [Effect.frame Frame.started, Effect.createCtx env.freshId] ++ p2.2)

/-- The run_tts coroutine: connect when no websocket object exists, then run
the body. -/
def runTTS (env : Env) (st : ServiceState) (text : String) :
    ServiceState × List Effect :=
  let p1 := if st.websocket.isNone then connectOp env st else (st, [])
  runTTSCore env p1.1 text p1.2

/-- One message of _process_messages: dispatch a parsed string message to
_process_json_message; push an error when json.loads fails (the per-message
except block); log and drop non-string messages. -/
def processOneRaw (st : ServiceState) (r : RawMsg) : ServiceState × List Effect :=
  match r with
  | RawMsg.text m => processJsonMessage st m
  | RawMsg.badJson => (st, [Effect.pushError "error processing message"])
  | RawMsg.nonText => (st, [])

/-- The _process_messages coroutine on one connection: process each inbound
message of the batch in order until the connection ends. -/
def processMessages (st : ServiceState) (batch : List RawMsg) :
    ServiceState × List Effect :=
  match batch with
  | [] => (st, [])
  | r :: rest =>
    let p1 := processOneRaw st r
    let p2 := processMessages p1.1 rest
    (p2.1, p1.2 ++ p2.2)

/-- One iteration of the _receive_messages loop: process the messages of the
current connection; the iteration ends because the transport closed or timed
out (the connection object is now in a non-OPEN state), after which the loop
body calls _connect_websocket again. -/
def receiveIter (env : Env) (st : ServiceState) (batch : List RawMsg) :
    ServiceState × List Effect :=
  let p1 := processMessages st batch
  let st2 := { p1.1 with websocket := some false }
  let p2 := connectWebsocket env st2
  (p2.1, p1.2 ++ p2.2)

/-- The _receive_messages while-true loop unrolled over a sequence of
connection lifetimes: each element is the batch of messages one connection
delivers before it drops; the loop reconnects after every drop and never
exits on its own. -/
def receiveLoopRun (env : Env) (st : ServiceState) :
    List (List RawMsg) → ServiceState × List Effect
  | [] => (st, [])
  | b :: rest =>
    let p1 := receiveIter env st b
    let p2 := receiveLoopRun env p1.1 rest
    (p2.1, p1.2 ++ p2.2)

/-- The fields of a decoded Synthesize message, per the wire protocol shape
given in the spec. -/
structure SynthFields where
  voice_id : Option String
  style : Option String
  rate : Option Int
  pitch : Option Int
  pronunciation_dictionary : List (String × List (String × String))
  variation : Option Int
  multi_native_locale : Option String
  context_id : Option String
  text : String
  endFlag : Bool
  deriving DecidableEq

/-- Lookup of a key in a JSON object field list (first match). -/
def jlookup (fs : List (String × Json)) (k : String) : Option Json :=
  match fs with
  | [] => none
  | p :: rest => if p.1 == k then some p.2 else jlookup rest k

/-- Decode a JSON value standing for an optional string (null or string). -/
def decOptStr : Json → Option (Option String)
  | Json.null => some none
  | Json.str s => some (some s)
  | _ => none

/-- Decode a JSON value standing for an optional integer (null or number). -/
def decOptInt : Json → Option (Option Int)
  | Json.null => some none
  | Json.num n => some (some n)
  | _ => none

/-- Decode the fields of one inner pronunciation mapping (all values must be
strings). -/
def decInnerFields : List (String × Json) → Option (List (String × String))
  | [] => some []
  | p :: rest =>
    match p.2, decInnerFields rest with
    | Json.str s, some l => some ((p.1, s) :: l)
    | _, _ => none

/-- Decode the fields of the pronunciation dictionary object (all values must
be objects of strings). -/
def decDictFields : List (String × Json) →
    Option (List (String × List (String × String)))
  | [] => some []
  | p :: rest =>
    match p.2, decDictFields rest with
    | Json.obj inner, some l =>
      match decInnerFields inner with
      | some il => some ((p.1, il) :: l)
      | none => none
    | _, _ => none

/-- Decode the nested pronunciation dictionary object. -/
def decDict (j : Json) : Option (List (String × List (String × String))) :=
  match j with
  | Json.obj fs => decDictFields fs
  | _ => none

/-- Decoder for the Synthesize message shape of the spec: reads the
voice_config object field by field (multi_native_locale present or omitted),
the context id, the text and the end flag. -/
def decodeSynthesize (j : Json) : Option SynthFields :=
  match j with
  | Json.obj fs =>
    match jlookup fs "voice_config", jlookup fs "context_id",
          jlookup fs "text", jlookup fs "end" with
    | some (Json.obj vfs), some cid, some (Json.str t), some (Json.bool e) =>
      match jlookup vfs "voice_id", jlookup vfs "style", jlookup vfs "rate",
            jlookup vfs "pitch", jlookup vfs "pronunciation_dictionary",
            jlookup vfs "variation" with
      | some jv, some js, some jr, some jp, some jd, some jvar =>
        match decOptStr jv, decOptStr js, decOptInt jr, decOptInt jp,
              decDict jd, decOptInt jvar, decOptStr cid with
        | some v, some s, some r, some p, some d, some va, some c =>
          match jlookup vfs "multi_native_locale" with
          | none =>
            some { voice_id := v, style := s, rate := r, pitch := p,
                   pronunciation_dictionary := d, variation := va,
                   multi_native_locale := none, context_id := c,
                   text := t, endFlag := e }
          | some jl =>
            match jl with
            | Json.str l =>
              some { voice_id := v, style := s, rate := r, pitch := p,
                     pronunciation_dictionary := d, variation := va,
                     multi_native_locale := some l, context_id := c,
                     text := t, endFlag := e }
            | _ => none
        | _, _, _, _, _, _, _ => none
      | _, _, _, _, _, _ => none
    | _, _, _, _ => none
  | _ => none

/-- The key list of a JSON object (empty for non-objects). -/
def topKeys (j : Json) : List String :=
  match j with
  | Json.obj fs => fs.map Prod.fst
  | _ => []

/-- The key list of the voice_config object inside a message. -/
def vcKeys (j : Json) : List String :=
  match j with
  | Json.obj fs =>
    match jlookup fs "voice_config" with
    | some (Json.obj vfs) => vfs.map Prod.fst
    | _ => []
  | _ => []

/-- A message is stale for a state when its resolved context id is not a
string or names no available context. -/
def staleFor (st : ServiceState) (m : InMsg) : Bool :=
  match resolvedCtx st m with
  | none => true
  | some c => !ctxAvailable st c

/-- Whether an effect is a stopped frame pushed downstream. -/
def isStoppedEff : Effect → Bool
  | Effect.frame Frame.stopped => true
  | _ => false

/-- Number of stopped frames among the effects. -/
def countStopped (l : List Effect) : Nat :=
  (l.filter isStoppedEff).length

/-- Whether an effect is a websocket_connect invocation. -/
def isConnectEff : Effect → Bool
  | Effect.connectEv _ => true
  | _ => false

/-- Number of websocket_connect invocations among the effects. -/
def connAttempts (l : List Effect) : Nat :=
  (l.filter isConnectEff).length

/-- Whether an effect is a websocket close invocation. -/
def isCloseEff : Effect → Bool
  | Effect.closeEv => true
  | _ => false

/-- Number of websocket close invocations among the effects. -/
def closeAttempts (l : List Effect) : Nat :=
  (l.filter isCloseEff).length

/-- Whether an effect is a websocket send. -/
def isSendEff : Effect → Bool
  | Effect.send _ => true
  | _ => false

/-- The single-active-context invariant, following the data model of the
spec: with no tracked context id the registry is empty; with a tracked id the
id is non-empty, a connection object exists, and the registry is empty or
holds exactly that context. -/
def singleCtxInv (st : ServiceState) : Bool :=
  match st.contextId, st.contexts with
  | none, [] => true
  | none, _ => false
  | some c, [] => !c.isEmpty && st.websocket.isSome
  | some c, [(cEntry, _)] => !c.isEmpty && st.websocket.isSome && (cEntry == c)
  | some _, _ => false

/-- The settings built from the default InputParams. -/
def defaultSettings : Settings :=
  { voice_id := some "en-UK-ruby", style := some "Conversational",
    rate := some 0, pitch := some 0, pronunciation_dictionary := [],
    variation := some 1, multi_native_locale := none, model := some "FALCON",
    sample_rate := some 44100, channel_type := some "MONO", format := some "PCM" }

/-- A connected service with no active context. -/
def stIdle : ServiceState :=
  { settings := defaultSettings, contextId := none, websocket := some true,
    receiveTask := true, contexts := [], ttfbRunning := false,
    usageRunning := false, sampleRate := 44100,
    url := "wss://global.api.murf.ai/v1/speech/stream-input" }

/-- A connected service with one active context c1. -/
def stActive : ServiceState :=
  { stIdle with
    contextId := some "c1"
    contexts := [("c1", [])]
    ttfbRunning := true }

/-- An environment where every external operation succeeds. -/
def envOk : Env :=
  { connectOk := true, sendOk := true, createOk := true, freshId := "f1" }

/-- A message that is stale for the state is discarded unchanged. -/
theorem processJson_stale_eq (st : ServiceState) (m : InMsg)
    (h : staleFor st m = true) :
    processJsonMessage st m = (st, []) := by
  unfold staleFor at h
  unfold processJsonMessage
  cases hr : resolvedCtx st m with
  | none => rfl
  | some c =>
    rw [hr] at h
    have h2 : (!ctxAvailable st c) = true := h
    have hav : ctxAvailable st c = false := by simpa using h2
    simp [hav]

/-- Claim C1: an inbound message whose resolved context id (explicit, or the
tracked id as fallback when the key is absent, or no string at all) names no
available audio context is discarded with no side effects: the state is
unchanged (no context created or removed, tracked id and metrics untouched)
and no effect at all is emitted. -/
theorem c1_stale_inbound_discarded (st : ServiceState) (m : InMsg)
    (h : staleFor st m = true) :
    processJsonMessage st m = (st, []) :=
  processJson_stale_eq st m h

/-- Witness for C1: a message carrying a stale context id (the service tracks
context c1) is dropped with no state change and no effects, even though it
carries an error key. -/
theorem c1_stale_inbound_discarded_witness :
    processJsonMessage stActive
      { ctx := CtxField.str "stale", error := some "boom",
        audio := none, final := none } = (stActive, []) :=
  c1_stale_inbound_discarded stActive
    { ctx := CtxField.str "stale", error := some "boom",
      audio := none, final := none } (by decide)

/-- Removing a context id makes it unavailable. -/
theorem ctxAvailable_removeCtxOp (st : ServiceState) (c : String) :
    ctxAvailable (removeCtxOp st c) c = false := by
  unfold ctxAvailable removeCtxOp
  simp only
  induction st.contexts with
  | nil => rfl
  | cons hd tl ih =>
    cases hk : (hd.1 == c) with
    | true => simp [List.filter_cons, hk, ih]
    | false => simp [List.filter_cons, hk, ih]

/-- The append map of appendCtxOp never changes the key of an entry. -/
theorem fst_append_entry (id : String) (f : AudioFrame)
    (p : String × List AudioFrame) :
    (if p.1 == id then (p.1, p.2 ++ [f]) else p).1 = p.1 := by
  cases h : (p.1 == id) <;> simp [h]

/-- Appending to a context buffer does not change which ids are available. -/
theorem ctxAvailable_appendCtxOp (st : ServiceState) (id c : String)
    (f : AudioFrame) :
    ctxAvailable (appendCtxOp st id f) c = ctxAvailable st c := by
  unfold ctxAvailable appendCtxOp
  simp only
  induction st.contexts with
  | nil => rfl
  | cons hd tl ih =>
    simp only [List.map_cons, List.any_cons, fst_append_entry, ih]

/-- Facts delivered by the single-active-context invariant when a context id
is tracked: the id is non-empty, a connection object exists, and the registry
is empty or holds exactly that context. -/
theorem inv_facts (st : ServiceState) (c : String)
    (hInv : singleCtxInv st = true) (hc : st.contextId = some c) :
    c.isEmpty = false ∧ st.websocket.isSome = true ∧
    (st.contexts = [] ∨ ∃ b, st.contexts = [(c, b)]) := by
  unfold singleCtxInv at hInv
  rw [hc] at hInv
  cases hx : st.contexts with
  | nil =>
    rw [hx] at hInv
    simp only [Bool.and_eq_true, Bool.not_eq_true'] at hInv
    exact ⟨hInv.1, hInv.2, Or.inl rfl⟩
  | cons p rest =>
    obtain ⟨k, b⟩ := p
    cases rest with
    | nil =>
      rw [hx] at hInv
      simp only [Bool.and_eq_true, Bool.not_eq_true', beq_iff_eq] at hInv
      exact ⟨hInv.1.1, hInv.1.2, Or.inr ⟨b, by rw [hInv.2]⟩⟩
    | cons q rest2 =>
      rw [hx] at hInv
      simp at hInv

/-- The state after an interruption: the tracked context id is cleared and
both metrics timers are stopped, in every state. -/
theorem handleInterruption_state (env : Env) (st : ServiceState) :
    (handleInterruption env st).1.contextId = none ∧
    (handleInterruption env st).1.ttfbRunning = false ∧
    (handleInterruption env st).1.usageRunning = false := by
  unfold handleInterruption
  cases hc : st.contextId with
  | none => exact ⟨rfl, rfl, rfl⟩
  | some c =>
    simp only
    cases hg : (!c.isEmpty && st.websocket.isSome) with
    | false => simp [stopAllMetrics]
    | true =>
      cases hs : sendSucceeds st env with
      | false => simp [removeCtxOp, stopAllMetrics]
      | true => simp [removeCtxOp, stopAllMetrics]

/-- Claim C5: on an interruption, all metrics timers are stopped and the
local context id is cleared in every state; when a context is tracked (the
invariant then gives a connection object), its buffer is removed from the
registry, the clear message for it is sent when the send succeeds, and a
failing send is caught with the teardown still in effect. -/
theorem c5_interruption_clears_context (env : Env) (st : ServiceState)
    (hInv : singleCtxInv st = true) :
    (handleInterruption env st).1.contextId = none ∧
    (handleInterruption env st).1.ttfbRunning = false ∧
    (handleInterruption env st).1.usageRunning = false ∧
    (∀ c, st.contextId = some c →
      ctxAvailable (handleInterruption env st).1 c = false ∧
      (sendSucceeds st env = true →
        (handleInterruption env st).2 =
          [Effect.removeCtx c, Effect.send (clearMsg c)]) ∧
      (sendSucceeds st env = false →
        (handleInterruption env st).2 = [Effect.removeCtx c])) := by
  obtain ⟨h1, h2, h3⟩ := handleInterruption_state env st
  refine ⟨h1, h2, h3, ?_⟩
  intro c hc
  obtain ⟨hemp, hws, _⟩ := inv_facts st c hInv hc
  have hguard : (!c.isEmpty && st.websocket.isSome) = true := by
    simp [hemp, hws]
  cases hss : sendSucceeds st env with
  | true =>
    have hmain : handleInterruption env st =
        ({ removeCtxOp (stopAllMetrics st) c with contextId := none },
         [Effect.removeCtx c, Effect.send (clearMsg c)]) := by
      unfold handleInterruption
      rw [hc]
      simp only [hguard, if_true, hss]
    refine ⟨?_, fun _ => by rw [hmain], fun hf => absurd hf (by decide)⟩
    have hav2 : ctxAvailable { removeCtxOp (stopAllMetrics st) c with
        contextId := none } c = false :=
      ctxAvailable_removeCtxOp (stopAllMetrics st) c
    rw [hmain]
    exact hav2
  | false =>
    have hmain : handleInterruption env st =
        ({ removeCtxOp (stopAllMetrics st) c with contextId := none },
         [Effect.removeCtx c]) := by
      unfold handleInterruption
      rw [hc]
      simp only [hguard, if_true, hss, Bool.false_eq_true, if_false]
    refine ⟨?_, fun hf => absurd hf (by decide), fun _ => by rw [hmain]⟩
    have hav2 : ctxAvailable { removeCtxOp (stopAllMetrics st) c with
        contextId := none } c = false :=
      ctxAvailable_removeCtxOp (stopAllMetrics st) c
    rw [hmain]
    exact hav2

/-- Witness for C5: interrupting the active connected service removes the c1
buffer, sends the clear message for c1, and clears the tracked id. -/
theorem c5_interruption_clears_context_witness :
    (handleInterruption envOk stActive).1.contextId = none ∧
    ctxAvailable (handleInterruption envOk stActive).1 "c1" = false ∧
    (handleInterruption envOk stActive).2 =
      [Effect.removeCtx "c1", Effect.send (clearMsg "c1")] :=
  let h := c5_interruption_clears_context envOk stActive (by decide)
  let h4 := h.2.2.2 "c1" rfl
  ⟨h.1, h4.1, h4.2.1 rfl⟩

/-- Claim C6: an audio-bearing message for an available context decodes the
base64 payload and appends it to that context buffer as a mono frame at the
configured sample rate, stopping the time-to-first-byte timer; a decode
failure drops exactly that message with the whole state unchanged; in both
cases the tracked id, the websocket and the context survive, and no stopped
frame, error notification or context removal occurs. -/
theorem c6_audio_message_append_or_drop (st : ServiceState) (m : InMsg)
    (c a : String)
    (hres : resolvedCtx st m = some c) (havail : ctxAvailable st c = true)
    (herr : m.error = none) (haud : m.audio = some a) :
    (∀ bytes, b64decode a = some bytes →
      processJsonMessage st m =
        (appendCtxOp (stopTtfb st) c
          { audio := bytes, sampleRate := st.sampleRate, numChannels := 1 },
         [Effect.appendAudio c
          { audio := bytes, sampleRate := st.sampleRate, numChannels := 1 }])) ∧
    (b64decode a = none → processJsonMessage st m = (st, [])) ∧
    (processJsonMessage st m).1.contextId = st.contextId ∧
    (processJsonMessage st m).1.websocket = st.websocket ∧
    ctxAvailable (processJsonMessage st m).1 c = true ∧
    countStopped (processJsonMessage st m).2 = 0 ∧
    (∀ e, Effect.pushError e ∉ (processJsonMessage st m).2) ∧
    (∀ i, Effect.removeCtx i ∉ (processJsonMessage st m).2) := by
  cases hb : b64decode a with
  | some bytes =>
    have hmain : processJsonMessage st m =
        (appendCtxOp (stopTtfb st) c
          { audio := bytes, sampleRate := st.sampleRate, numChannels := 1 },
         [Effect.appendAudio c
          { audio := bytes, sampleRate := st.sampleRate, numChannels := 1 }]) := by
      unfold processJsonMessage
      rw [hres]
      simp only [havail, if_true, herr, haud, hb]
    refine ⟨?_, ?_, ?_, ?_, ?_, ?_, ?_, ?_⟩
    · intro bytes2 hb2
      cases hb2
      exact hmain
    · intro hbad; cases hbad
    · rw [hmain]; rfl
    · rw [hmain]; rfl
    · rw [hmain]
      calc ctxAvailable (appendCtxOp (stopTtfb st) c
            { audio := bytes, sampleRate := st.sampleRate, numChannels := 1 },
           [Effect.appendAudio c
            { audio := bytes, sampleRate := st.sampleRate, numChannels := 1 }]).1 c
          = ctxAvailable (stopTtfb st) c :=
            ctxAvailable_appendCtxOp (stopTtfb st) c c
              { audio := bytes, sampleRate := st.sampleRate, numChannels := 1 }
        _ = true := havail
    · rw [hmain]; rfl
    · rw [hmain]; intro e; simp
    · rw [hmain]; intro i; simp
  | none =>
    have hmain : processJsonMessage st m = (st, []) := by
      unfold processJsonMessage
      rw [hres]
      simp only [havail, if_true, herr, haud, hb]
    refine ⟨?_, ?_, ?_, ?_, ?_, ?_, ?_, ?_⟩
    · intro bytes2 hb2; cases hb2
    · intro _; exact hmain
    · rw [hmain]
    · rw [hmain]
    · rw [hmain]; exact havail
    · rw [hmain]; rfl
    · rw [hmain]; intro e; simp
    · rw [hmain]; intro i; simp

/-- Witness for C6: an audio message with payload QUJD (bytes 65 66 67) on
the active service appends the decoded mono frame at 44100 Hz to the c1
buffer, and one with invalid payload QQ is dropped with the state
unchanged. -/
theorem c6_audio_message_append_or_drop_witness :
    processJsonMessage stActive
      { ctx := CtxField.absent, error := none, audio := some "QUJD", final := none } =
      (appendCtxOp (stopTtfb stActive) "c1"
        { audio := [65, 66, 67], sampleRate := 44100, numChannels := 1 },
       [Effect.appendAudio "c1"
        { audio := [65, 66, 67], sampleRate := 44100, numChannels := 1 }]) ∧
    processJsonMessage stActive
      { ctx := CtxField.absent, error := none, audio := some "QQ", final := none } =
      (stActive, []) :=
  ⟨(c6_audio_message_append_or_drop stActive
      { ctx := CtxField.absent, error := none, audio := some "QUJD", final := none }
      "c1" "QUJD" rfl rfl rfl rfl).1 [65, 66, 67] (by decide),
   (c6_audio_message_append_or_drop stActive
      { ctx := CtxField.absent, error := none, audio := some "QQ", final := none }
      "c1" "QQ" rfl rfl rfl rfl).2.1 (by decide)⟩

/-- Connect attempts distribute over effect concatenation. -/
theorem connAttempts_append (a b : List Effect) :
    connAttempts (a ++ b) = connAttempts a + connAttempts b := by
  simp [connAttempts, List.filter_append]

/-- Close attempts distribute over effect concatenation. -/
theorem closeAttempts_append (a b : List Effect) :
    closeAttempts (a ++ b) = closeAttempts a + closeAttempts b := by
  simp [closeAttempts, List.filter_append]

/-- Stopped frames distribute over effect concatenation. -/
theorem countStopped_append (a b : List Effect) :
    countStopped (a ++ b) = countStopped a + countStopped b := by
  simp [countStopped, List.filter_append]

/-- The effects of _disconnect_websocket: no connect attempt, one close
exactly when a websocket object exists, no send; the state afterwards has no
websocket and no context id. -/
theorem disconnectWebsocket_effects (st : ServiceState) :
    connAttempts (disconnectWebsocket st).2 = 0 ∧
    closeAttempts (disconnectWebsocket st).2 =
      (if st.websocket.isSome then 1 else 0) ∧
    (∀ j, Effect.send j ∉ (disconnectWebsocket st).2) ∧
    (disconnectWebsocket st).1.websocket = none ∧
    (disconnectWebsocket st).1.contextId = none := by
  unfold disconnectWebsocket
  cases hws : st.websocket.isSome with
  | true =>
    cases hc : st.contextId with
    | none =>
      simp [connAttempts, closeAttempts, isConnectEff, isCloseEff]
    | some c =>
      simp only
      cases hg : (!c.isEmpty && ctxAvailable st c) with
      | true =>
        simp [connAttempts, closeAttempts, isConnectEff, isCloseEff]
      | false =>
        simp [connAttempts, closeAttempts, isConnectEff, isCloseEff]
  | false =>
    cases hc : st.contextId with
    | none =>
      simp [connAttempts, closeAttempts, isConnectEff, isCloseEff]
    | some c =>
      simp only
      cases hg : (!c.isEmpty && ctxAvailable st c) with
      | true =>
        simp [connAttempts, closeAttempts, isConnectEff, isCloseEff]
      | false =>
        simp [connAttempts, closeAttempts, isConnectEff, isCloseEff]

/-- The effects of _disconnect: no connect attempt, one close exactly when a
websocket object exists, no send; afterwards no websocket and no context
id. -/
theorem disconnectOp_effects (st : ServiceState) :
    connAttempts (disconnectOp st).2 = 0 ∧
    closeAttempts (disconnectOp st).2 =
      (if st.websocket.isSome then 1 else 0) ∧
    (∀ j, Effect.send j ∉ (disconnectOp st).2) ∧
    (disconnectOp st).1.websocket = none ∧
    (disconnectOp st).1.contextId = none := by
  unfold disconnectOp
  cases hrt : st.receiveTask with
  | true =>
    simp only [if_true]
    obtain ⟨d1, d2, d3, d4, d5⟩ :=
      disconnectWebsocket_effects { st with receiveTask := false }
    refine ⟨?_, ?_, ?_, d4, d5⟩
    · rw [connAttempts_append, d1]
      simp [connAttempts, isConnectEff]
    · rw [closeAttempts_append, d2]
      simp [closeAttempts, isCloseEff]
    · intro j
      simp only [List.mem_append, List.mem_cons, List.not_mem_nil]
      rintro (h | h)
      · rcases h with h | h
        · cases h
        · cases h
      · exact d3 j h
  | false =>
    simp only [Bool.false_eq_true, if_false]
    obtain ⟨d1, d2, d3, d4, d5⟩ := disconnectWebsocket_effects st
    exact ⟨by simpa [connAttempts_append] using d1,
           by simpa [closeAttempts_append] using d2,
           fun j h => d3 j (by simpa using h), d4, d5⟩

/-- The effects of _connect from the disconnected state: exactly one connect
attempt, no close, no send; the websocket afterwards is open exactly when the
connect succeeds. -/
theorem connectOp_from_disconnected (env : Env) (st : ServiceState)
    (h : st.websocket = none) :
    connAttempts (connectOp env st).2 = 1 ∧
    closeAttempts (connectOp env st).2 = 0 ∧
    (∀ j, Effect.send j ∉ (connectOp env st).2) ∧
    (connectOp env st).1.websocket =
      (if env.connectOk then some true else none) := by
  unfold connectOp connectWebsocket
  rw [h]
  cases hok : env.connectOk with
  | true =>
    cases hrt : st.receiveTask with
    | true => simp [connAttempts, closeAttempts, isConnectEff, isCloseEff, hrt]
    | false => simp [connAttempts, closeAttempts, isConnectEff, isCloseEff, hrt]
  | false =>
    simp [connAttempts, closeAttempts, isConnectEff, isCloseEff]

/-- Claim C7: a settings update touching a URL parameter performs exactly one
disconnect-then-connect cycle synchronously inside the call (one close when a
websocket object existed, exactly one fresh connect attempt even if the
connection was already open, no send in between), ending connected exactly
when the connect succeeds; an update touching only non-URL fields (such as
style) performs no disconnect and no connect at all and only rewrites the
settings. -/
theorem c7_settings_update_reconnect (env : Env) (st : ServiceState)
    (u : SettingsUpdate) :
    (touchesUrlParams u = true →
      connAttempts (updateSettingsOp env st u).2 = 1 ∧
      closeAttempts (updateSettingsOp env st u).2 =
        (if st.websocket.isSome then 1 else 0) ∧
      (∀ j, Effect.send j ∉ (updateSettingsOp env st u).2) ∧
      (updateSettingsOp env st u).1.websocket =
        (if env.connectOk then some true else none)) ∧
    (touchesUrlParams u = false →
      updateSettingsOp env st u =
        ({ st with settings := applySettings st.settings u }, [])) := by
  constructor
  · intro ht
    unfold updateSettingsOp
    rw [ht]
    simp only [if_true]
    obtain ⟨d1, d2, d3, d4, _⟩ :=
      disconnectOp_effects { st with settings := applySettings st.settings u }
    obtain ⟨c1, c2, c3, c4⟩ :=
      connectOp_from_disconnected env
        (disconnectOp { st with settings := applySettings st.settings u }).1 d4
    refine ⟨?_, ?_, ?_, c4⟩
    · rw [connAttempts_append, d1, c1]
    · rw [closeAttempts_append, d2, c2]
      simp
    · intro j hj
      rcases List.mem_append.mp hj with hj | hj
      · exact d3 j hj
      · exact c3 j hj
  · intro ht
    unfold updateSettingsOp
    rw [ht]
    simp

/-- A settings update carrying only a new sample rate. -/
def uSampleRate : SettingsUpdate := { sample_rate := some 24000 }

/-- A settings update carrying only a new style. -/
def uStyle : SettingsUpdate := { style := some "Calm" }

/-- Witness for C7: on the idle connected service, updating the sample rate
to 24000 closes and reconnects exactly once, while updating only the style
performs no connect or close and just rewrites the settings. -/
theorem c7_settings_update_reconnect_witness :
    connAttempts (updateSettingsOp envOk stIdle uSampleRate).2 = 1 ∧
    closeAttempts (updateSettingsOp envOk stIdle uSampleRate).2 = 1 ∧
    updateSettingsOp envOk stIdle uStyle =
      ({ stIdle with settings := applySettings stIdle.settings uStyle }, []) :=
  ⟨((c7_settings_update_reconnect envOk stIdle uSampleRate).1 rfl).1,
   ((c7_settings_update_reconnect envOk stIdle uSampleRate).1 rfl).2.1,
   (c7_settings_update_reconnect envOk stIdle uStyle).2 rfl⟩

/-- Inbound dispatch never attempts a websocket connect. -/
theorem processJson_no_connect (st : ServiceState) (m : InMsg) :
    connAttempts (processJsonMessage st m).2 = 0 := by
  unfold processJsonMessage
  cases hr : resolvedCtx st m with
  | none => rfl
  | some c =>
    cases hav : ctxAvailable st c with
    | false => simp [hav, connAttempts]
    | true =>
      simp only [hav, if_true]
      cases m.error with
      | some e => rfl
      | none =>
        dsimp only
        cases m.audio with
        | some a =>
          dsimp only
          cases hb : b64decode a with
          | some bytes => simp [hb, connAttempts, isConnectEff]
          | none => simp [hb, connAttempts]
        | none =>
          dsimp only
          cases hf : (m.final == some true) with
          | true => simp [hf, connAttempts, isConnectEff]
          | false => simp [hf, connAttempts]

/-- Processing one raw inbound message never attempts a connect. -/
theorem processOneRaw_no_connect (st : ServiceState) (r : RawMsg) :
    connAttempts (processOneRaw st r).2 = 0 := by
  cases r with
  | text m => exact processJson_no_connect st m
  | badJson => rfl
  | nonText => rfl

/-- Processing the messages of one connection never attempts a connect. -/
theorem processMessages_no_connect (st : ServiceState) (batch : List RawMsg) :
    connAttempts (processMessages st batch).2 = 0 := by
  induction batch generalizing st with
  | nil => rfl
  | cons r rest ih =>
    unfold processMessages
    simp only
    rw [connAttempts_append, processOneRaw_no_connect, ih]

/-- One iteration of the receive loop (one connection lifetime ending in a
drop) performs exactly one fresh connect attempt and, when the connect
succeeds, leaves the websocket open again. -/
theorem receiveIter_reconnects (env : Env) (st : ServiceState)
    (batch : List RawMsg) (hok : env.connectOk = true) :
    connAttempts (receiveIter env st batch).2 = 1 ∧
    (receiveIter env st batch).1.websocket = some true := by
  unfold receiveIter connectWebsocket
  simp only [hok, if_true]
  constructor
  · rw [connAttempts_append, processMessages_no_connect]
    rfl
  · rfl

/-- Claim C9: the receive loop never exits on its own: across any sequence of
connection lifetimes each ending in a transport drop, the loop performs
exactly one fresh connect per drop, with no bound on the number of
consecutive drops, and is connected again (still receiving) after the last
one whenever the connects succeed. -/
theorem c9_receive_loop_reconnects_forever (env : Env) (st : ServiceState)
    (batches : List (List RawMsg)) (hok : env.connectOk = true) :
    connAttempts (receiveLoopRun env st batches).2 = batches.length ∧
    (batches = [] ∨
      (receiveLoopRun env st batches).1.websocket = some true) := by
  induction batches generalizing st with
  | nil => exact ⟨rfl, Or.inl rfl⟩
  | cons b rest ih =>
    obtain ⟨i1, i2⟩ := receiveIter_reconnects env st b hok
    obtain ⟨l1, l2⟩ := ih (receiveIter env st b).1
    constructor
    · show connAttempts ((receiveIter env st b).2 ++
        (receiveLoopRun env (receiveIter env st b).1 rest).2) = rest.length + 1
      rw [connAttempts_append, i1, l1]
      omega
    · refine Or.inr ?_
      rcases l2 with hrest | hws
      · subst hrest
        exact i2
      · exact hws

/-- Witness for C9: two consecutive connection drops (one delivering an
unparseable message, one delivering nothing) produce exactly two fresh
connect attempts and leave the service connected. -/
theorem c9_receive_loop_reconnects_forever_witness :
    connAttempts (receiveLoopRun envOk stIdle [[RawMsg.badJson], []]).2 = 2 ∧
    (receiveLoopRun envOk stIdle [[RawMsg.badJson], []]).1.websocket =
      some true :=
  let h := c9_receive_loop_reconnects_forever envOk stIdle
    [[RawMsg.badJson], []] rfl
  ⟨h.1, by
    rcases h.2 with hemp | hws
    · exact absurd hemp (by simp)
    · exact hws⟩

/-- Decoding inverts encoding for optional string settings. -/
theorem decOptStr_encOptStr (x : Option String) :
    decOptStr (encOptStr x) = some x := by
  cases x <;> rfl

/-- Decoding inverts encoding for optional integer settings. -/
theorem decOptInt_encOptInt (x : Option Int) :
    decOptInt (encOptInt x) = some x := by
  cases x <;> rfl

/-- Decoding inverts encoding for the inner pronunciation mappings. -/
theorem decInnerFields_enc (l : List (String × String)) :
    decInnerFields (l.map (fun q => (q.1, Json.str q.2))) = some l := by
  induction l with
  | nil => rfl
  | cons q rest ih =>
    show decInnerFields ((q.1, Json.str q.2) ::
      rest.map (fun q => (q.1, Json.str q.2))) = some (q :: rest)
    unfold decInnerFields
    rw [ih]

/-- Decoding inverts encoding for the pronunciation dictionary fields. -/
theorem decDictFields_enc (d : List (String × List (String × String))) :
    decDictFields (d.map (fun p =>
      (p.1, Json.obj (p.2.map (fun q => (q.1, Json.str q.2)))))) = some d := by
  induction d with
  | nil => rfl
  | cons p rest ih =>
    show decDictFields ((p.1, Json.obj (p.2.map (fun q => (q.1, Json.str q.2)))) ::
      rest.map _) = some (p :: rest)
    unfold decDictFields
    rw [ih]
    dsimp only
    rw [decInnerFields_enc]

/-- Decoding inverts encoding for the pronunciation dictionary. -/
theorem decDict_encDict (d : List (String × List (String × String))) :
    decDict (encDict d) = some d := by
  unfold decDict encDict
  exact decDictFields_enc d

/-- Claim C8: the Synthesize message built for a settings snapshot has
exactly the keys voice_config, context_id, text and end at the top level,
the voice_config object has the six voice keys with multi_native_locale
appended exactly when the configured locale is truthy (set and non-empty),
and decoding the built message recovers the original voice configuration
values, context id, text and end flag. -/
theorem c8_synthesize_shape_roundtrip (st : ServiceState) (t : String)
    (b : Bool) (hloc : st.settings.multi_native_locale ≠ some "") :
    topKeys (buildVoiceConfigMessage st t b) =
      ["voice_config", "context_id", "text", "end"] ∧
    vcKeys (buildVoiceConfigMessage st t b) =
      (["voice_id", "style", "rate", "pitch", "pronunciation_dictionary",
        "variation"] ++
       (if optTruthy st.settings.multi_native_locale
        then ["multi_native_locale"] else [])) ∧
    decodeSynthesize (buildVoiceConfigMessage st t b) =
      some { voice_id := st.settings.voice_id, style := st.settings.style,
             rate := st.settings.rate, pitch := st.settings.pitch,
             pronunciation_dictionary := st.settings.pronunciation_dictionary,
             variation := st.settings.variation,
             multi_native_locale := st.settings.multi_native_locale,
             context_id := st.contextId, text := t, endFlag := b } := by
  cases hl : st.settings.multi_native_locale with
  | none =>
    have hot : optTruthy st.settings.multi_native_locale = false := by
      rw [hl]; rfl
    refine ⟨?_, ?_, ?_⟩
    · simp [buildVoiceConfigMessage, topKeys, hot, hl, optTruthy]
    · simp [buildVoiceConfigMessage, vcKeys, hot, hl, optTruthy, jlookup]
    · simp [buildVoiceConfigMessage, decodeSynthesize, hot, jlookup,
        decOptStr_encOptStr, decOptInt_encOptInt, decDict_encDict, hl, optTruthy]
  | some l =>
    have hle : l.isEmpty = false := by
      cases he : l.isEmpty with
      | false => rfl
      | true =>
        exfalso
        apply hloc
        rw [hl, (String.isEmpty_iff l).mp he]
    have hot : optTruthy st.settings.multi_native_locale = true := by
      rw [hl]; simp [optTruthy, hle]
    refine ⟨?_, ?_, ?_⟩
    · simp [buildVoiceConfigMessage, topKeys, hot, hl, optTruthy, hle]
    · simp [buildVoiceConfigMessage, vcKeys, hot, hl, optTruthy, hle, jlookup]
    · simp only [buildVoiceConfigMessage, decodeSynthesize, hot, jlookup,
        decOptStr_encOptStr, decOptInt_encOptInt, decDict_encDict, hl,
        optTruthy, hle]
      simp [buildVoiceConfigMessage, decodeSynthesize, hot, jlookup,
        decOptStr_encOptStr, decOptInt_encOptInt, decDict_encDict, hl,
        optTruthy, hle]
      rfl

/-- Witness for C8: with the default settings (no locale) and context c1 the
built message has the four top-level keys, no multi_native_locale key, and
decodes back to the original configuration; the hypothesis that the locale is
not the empty string holds. -/
theorem c8_synthesize_shape_roundtrip_witness :
    topKeys (buildVoiceConfigMessage stActive "Hello" false) =
      ["voice_config", "context_id", "text", "end"] ∧
    decodeSynthesize (buildVoiceConfigMessage stActive "Hello" false) =
      some { voice_id := some "en-UK-ruby", style := some "Conversational",
             rate := some 0, pitch := some 0, pronunciation_dictionary := [],
             variation := some 1, multi_native_locale := none,
             context_id := some "c1", text := "Hello", endFlag := false } :=
  let h := c8_synthesize_shape_roundtrip stActive "Hello" false (by decide)
  ⟨h.1, h.2.2⟩

/-- The invariant holds when no context id is tracked and the registry is
empty. -/
theorem inv_none (st : ServiceState) (h1 : st.contextId = none)
    (h2 : st.contexts = []) : singleCtxInv st = true := by
  unfold singleCtxInv
  rw [h1, h2]

/-- The invariant holds when exactly the tracked non-empty context is
registered and a websocket object exists. -/
theorem inv_single (st : ServiceState) (c : String) (b : List AudioFrame)
    (h1 : st.contextId = some c) (hemp : c.isEmpty = false)
    (hws : st.websocket.isSome = true) (h2 : st.contexts = [(c, b)]) :
    singleCtxInv st = true := by
  unfold singleCtxInv
  rw [h1, h2]
  simp [hemp, hws]

/-- The invariant holds when a non-empty context id is tracked, a websocket
object exists and the registry is empty. -/
theorem inv_some_empty (st : ServiceState) (c : String)
    (h1 : st.contextId = some c) (hemp : c.isEmpty = false)
    (hws : st.websocket.isSome = true) (h2 : st.contexts = []) :
    singleCtxInv st = true := by
  unfold singleCtxInv
  rw [h1, h2]
  simp [hemp, hws]

/-- Under the invariant, no tracked context id means an empty registry. -/
theorem inv_none_contexts (st : ServiceState) (hInv : singleCtxInv st = true)
    (hc : st.contextId = none) : st.contexts = [] := by
  unfold singleCtxInv at hInv
  rw [hc] at hInv
  cases hx : st.contexts with
  | nil => rfl
  | cons p r =>
    rw [hx] at hInv
    simp at hInv

/-- Removing the only possibly-registered context empties the registry. -/
theorem remove_all_of_inv (l : List (String × List AudioFrame)) (c : String)
    (b : List AudioFrame) (h : l = [] ∨ l = [(c, b)]) :
    l.filter (fun p => !(p.1 == c)) = [] := by
  rcases h with h | h <;> subst h <;> simp

/-- Under the invariant, an available context id is exactly the tracked one,
with its singleton registry entry. -/
theorem avail_structure (st : ServiceState) (c : String)
    (hInv : singleCtxInv st = true) (hav : ctxAvailable st c = true) :
    ∃ b, st.contextId = some c ∧ c.isEmpty = false ∧
      st.websocket.isSome = true ∧ st.contexts = [(c, b)] := by
  cases hc : st.contextId with
  | none =>
    have h2 := inv_none_contexts st hInv hc
    rw [ctxAvailable, h2] at hav
    cases hav
  | some c0 =>
    obtain ⟨hemp, hws, hd⟩ := inv_facts st c0 hInv hc
    rcases hd with h | ⟨b, h⟩
    · rw [ctxAvailable, h] at hav
      cases hav
    · rw [ctxAvailable, h] at hav
      simp only [List.any_cons, List.any_nil, Bool.or_false] at hav
      have hcc : c0 = c := by simpa using hav
      subst hcc
      exact ⟨b, rfl, hemp, hws, h⟩

/-- _connect leaves the tracked context id and the registry unchanged. -/
theorem connectOp_preserves (env : Env) (st : ServiceState) :
    (connectOp env st).1.contextId = st.contextId ∧
    (connectOp env st).1.contexts = st.contexts ∧
    (∀ i, Effect.createCtx i ∉ (connectOp env st).2) ∧
    countStopped (connectOp env st).2 = 0 ∧
    (∀ j, Effect.send j ∉ (connectOp env st).2) := by
  unfold connectOp connectWebsocket
  cases hA : (st.websocket == some true) with
  | true =>
    cases hB : (st.websocket.isSome && !st.receiveTask) with
    | true => simp [hA, hB, countStopped]
    | false => simp [hA, hB, countStopped]
  | false =>
    cases hok : env.connectOk with
    | true =>
      cases hB : !st.receiveTask with
      | true => simp [hA, hok, hB, countStopped, isStoppedEff]
      | false => simp [hA, hok, hB, countStopped, isStoppedEff]
    | false => simp [hA, hok, countStopped, isStoppedEff]

/-- The two outcomes of the send step of run_tts. -/
theorem runTTSSend_cases (env : Env) (st : ServiceState) (t : String) :
    (sendSucceeds st env = true →
      runTTSSend env st t = ({ st with usageRunning := true },
        [Effect.send (buildVoiceConfigMessage st t false)])) ∧
    (sendSucceeds st env = false →
      runTTSSend env st t = exceptTeardown "error sending message" st) := by
  constructor <;> intro h <;> unfold runTTSSend <;> rw [h] <;> simp

/-- The except block of run_tts on a state tracking a non-empty context id:
error pushed, stopped frame, metrics stopped, context removed and id
cleared. -/
theorem exceptTeardown_eq (msg : String) (st : ServiceState) (c : String)
    (hc : st.contextId = some c) (hemp : c.isEmpty = false) :
    exceptTeardown msg st =
      ({ removeCtxOp (stopAllMetrics st) c with contextId := none },
       [Effect.pushError msg, Effect.frame Frame.stopped,
        Effect.removeCtx c]) := by
  unfold exceptTeardown
  rw [hc]
  simp [hemp]

/-- A truthy optional string is a non-empty string. -/
theorem truthy_some (o : Option String) (h : optTruthy o = true) :
    ∃ c, o = some c ∧ c.isEmpty = false := by
  cases o with
  | none => cases h
  | some c => exact ⟨c, rfl, by simpa [optTruthy] using h⟩

/-- Under the invariant, a falsy tracked context id is none and the registry
is empty. -/
theorem inv_falsy_ctx (st : ServiceState) (hInv : singleCtxInv st = true)
    (hot : optTruthy st.contextId = false) :
    st.contextId = none ∧ st.contexts = [] := by
  cases hc : st.contextId with
  | none => exact ⟨rfl, inv_none_contexts st hInv hc⟩
  | some c =>
    obtain ⟨hemp, _, _⟩ := inv_facts st c hInv hc
    rw [hc] at hot
    simp [optTruthy, hemp] at hot

/-- A successful send needs an open websocket. -/
theorem sendSucceeds_ws (st : ServiceState) (env : Env)
    (h : sendSucceeds st env = true) : st.websocket = some true := by
  unfold sendSucceeds at h
  rw [Bool.and_eq_true] at h
  have h2 := h.1
  simpa using h2

/-- With a failing send environment no send succeeds. -/
theorem sendSucceeds_of_sendOk_false (st : ServiceState) (env : Env)
    (h : env.sendOk = false) : sendSucceeds st env = false := by
  unfold sendSucceeds
  rw [h]
  simp

/-- Without a websocket object no send succeeds. -/
theorem sendSucceeds_of_ws_none (st : ServiceState) (env : Env)
    (h : st.websocket = none) : sendSucceeds st env = false := by
  unfold sendSucceeds
  rw [h]
  rfl

/-- A failed connect from the disconnected state leaves no websocket. -/
theorem connectOp_ws_none_fail (env : Env) (st : ServiceState)
    (hws : st.websocket = none) (hok : env.connectOk = false) :
    (connectOp env st).1.websocket = none := by
  unfold connectOp connectWebsocket
  rw [hws, hok]
  simp

/-- The send step never emits a createCtx effect. -/
theorem runTTSSend_no_create (env : Env) (st : ServiceState) (t : String)
    (i : String) : Effect.createCtx i ∉ (runTTSSend env st t).2 := by
  unfold runTTSSend exceptTeardown
  cases hss : sendSucceeds st env with
  | true => simp
  | false =>
    simp only [Bool.false_eq_true, if_false]
    cases hc : st.contextId with
    | none => simp
    | some c =>
      cases he : c.isEmpty with
      | true => simp [he]
      | false => simp [he]

/-- The runTTSCore body in its three branches, as explicit equations. -/
theorem runTTSCore_active (env : Env) (st1 : ServiceState) (t : String)
    (pre : List Effect) (hot : optTruthy st1.contextId = true) :
    runTTSCore env st1 t pre =
      ((runTTSSend env st1 t).1,
       pre ++ [Effect.frame (Frame.text t "sentence")] ++
         (runTTSSend env st1 t).2) := by
  unfold runTTSCore
  rw [hot]
  simp

/-- The fresh-context branch of runTTSCore with a succeeding allocation. -/
theorem runTTSCore_fresh_create (env : Env) (st1 : ServiceState) (t : String)
    (pre : List Effect) (hot : optTruthy st1.contextId = false)
    (hco : env.createOk = true) :
    runTTSCore env st1 t pre =
      ((runTTSSend env (createCtxOp
          { st1 with ttfbRunning := true, contextId := some env.freshId }
          env.freshId) t).1,
       pre ++
        [Effect.frame Frame.started, Effect.createCtx env.freshId,
         Effect.frame (Frame.text t "sentence")] ++
        (runTTSSend env (createCtxOp
          { st1 with ttfbRunning := true, contextId := some env.freshId }
          env.freshId) t).2) := by
  unfold runTTSCore
  rw [hot, hco]
  simp

/-- The fresh-context branch of runTTSCore with a failing allocation. -/
theorem runTTSCore_fresh_nocreate (env : Env) (st1 : ServiceState)
    (t : String) (pre : List Effect) (hot : optTruthy st1.contextId = false)
    (hco : env.createOk = false) :
    runTTSCore env st1 t pre =
      ((exceptTeardown "error"
          { st1 with ttfbRunning := true, contextId := some env.freshId }).1,
       pre ++
        [Effect.frame Frame.started, Effect.createCtx env.freshId] ++
        (exceptTeardown "error"
          { st1 with ttfbRunning := true, contextId := some env.freshId }).2) := by
  unfold runTTSCore
  rw [hot, hco]
  simp

/-- The two forms of run_tts depending on whether a connect is needed. -/
theorem runTTS_eq_core (env : Env) (st : ServiceState) (t : String) :
    (st.websocket.isNone = false → runTTS env st t = runTTSCore env st t []) ∧
    (st.websocket.isNone = true →
      runTTS env st t =
        runTTSCore env (connectOp env st).1 t (connectOp env st).2) := by
  constructor <;> intro h <;> unfold runTTS <;> rw [h] <;> simp

/-- Every failing run of the run_tts body (failing send, or failing context
allocation on a fresh turn) pushes an error, yields exactly one stopped
frame, stops the metrics timers, clears the tracked context id, sends
nothing, and removes any context it created. -/
theorem runTTSCore_failure (env : Env) (st1 : ServiceState) (t : String)
    (pre : List Effect)
    (hfresh : env.freshId.isEmpty = false)
    (hpre1 : countStopped pre = 0)
    (hpre2 : ∀ j, Effect.send j ∉ pre)
    (hpre3 : ∀ i, Effect.createCtx i ∉ pre)
    (hfail : sendSucceeds st1 env = false ∨
      (env.createOk = false ∧ optTruthy st1.contextId = false)) :
    countStopped (runTTSCore env st1 t pre).2 = 1 ∧
    (runTTSCore env st1 t pre).1.ttfbRunning = false ∧
    (runTTSCore env st1 t pre).1.usageRunning = false ∧
    (runTTSCore env st1 t pre).1.contextId = none ∧
    (∃ e, Effect.pushError e ∈ (runTTSCore env st1 t pre).2) ∧
    (∀ j, Effect.send j ∉ (runTTSCore env st1 t pre).2) ∧
    (∀ i, Effect.createCtx i ∈ (runTTSCore env st1 t pre).2 →
      Effect.removeCtx i ∈ (runTTSCore env st1 t pre).2) := by
  rcases Bool.dichotomy (optTruthy st1.contextId) with hot | hot
  · rcases Bool.dichotomy env.createOk with hco | hco
    · rw [runTTSCore_fresh_nocreate env st1 t pre hot hco,
        exceptTeardown_eq "error"
          { st1 with ttfbRunning := true, contextId := some env.freshId }
          env.freshId rfl hfresh]
      refine ⟨?_, rfl, rfl, rfl, ⟨"error", by simp⟩, ?_, ?_⟩
      · rw [countStopped_append, countStopped_append, hpre1]
        rfl
      · intro j hj
        simp only [List.append_assoc, List.mem_append, List.mem_cons,
          List.not_mem_nil, or_false] at hj
        rcases hj with hj | hj
        · exact hpre2 j hj
        · simp at hj
      · intro i hi
        simp only [List.append_assoc, List.mem_append, List.mem_cons,
          List.not_mem_nil, or_false] at hi
        rcases hi with hi | hi
        · exact absurd hi (hpre3 i)
        · simp at hi
          subst hi
          simp
    · have hsf : sendSucceeds st1 env = false := by
        rcases hfail with h | ⟨h2, _⟩
        · exact h
        · rw [hco] at h2; cases h2
      have hsfB : sendSucceeds (createCtxOp
          { st1 with ttfbRunning := true, contextId := some env.freshId }
          env.freshId) env = false := hsf
      rw [runTTSCore_fresh_create env st1 t pre hot hco,
        (runTTSSend_cases env _ t).2 hsfB,
        exceptTeardown_eq "error sending message" _ env.freshId rfl hfresh]
      refine ⟨?_, rfl, rfl, rfl, ⟨"error sending message", by simp⟩, ?_, ?_⟩
      · rw [countStopped_append, countStopped_append, hpre1]
        rfl
      · intro j hj
        simp only [List.append_assoc, List.mem_append, List.mem_cons,
          List.not_mem_nil, or_false] at hj
        rcases hj with hj | hj
        · exact hpre2 j hj
        · simp at hj
      · intro i hi
        simp only [List.append_assoc, List.mem_append, List.mem_cons,
          List.not_mem_nil, or_false] at hi
        rcases hi with hi | hi
        · exact absurd hi (hpre3 i)
        · simp at hi
          subst hi
          simp
  · obtain ⟨c, hc, hemp⟩ := truthy_some _ hot
    have hsf : sendSucceeds st1 env = false := by
      rcases hfail with h | ⟨_, h2⟩
      · exact h
      · rw [hot] at h2; cases h2
    rw [runTTSCore_active env st1 t pre hot,
      (runTTSSend_cases env st1 t).2 hsf,
      exceptTeardown_eq "error sending message" st1 c hc hemp]
    refine ⟨?_, rfl, rfl, rfl, ⟨"error sending message", by simp⟩, ?_, ?_⟩
    · rw [countStopped_append, countStopped_append, hpre1]
      rfl
    · intro j hj
      simp only [List.append_assoc, List.mem_append, List.mem_cons,
        List.not_mem_nil, or_false] at hj
      rcases hj with hj | hj
      · exact hpre2 j hj
      · simp at hj
    · intro i hi
      simp only [List.append_assoc, List.mem_append, List.mem_cons,
        List.not_mem_nil, or_false] at hi
      rcases hi with hi | hi
      · exact absurd hi (hpre3 i)
      · simp at hi

/-- Claim C4: whenever a run_tts call fails (the synthesize send fails, the
websocket is absent and the reconnect fails, or the context allocation for a
fresh turn throws), the call pushes an error notification, yields exactly one
stopped frame, stops all metrics timers, clears the tracked context id,
removes any context it created, sends nothing to the server, and - being a
total function of the embedding - returns without raising. -/
theorem c4_run_tts_failure_recovery (env : Env) (st : ServiceState)
    (t : String) (hfresh : env.freshId ≠ "")
    (hfail : env.sendOk = false ∨
      (st.websocket = none ∧ env.connectOk = false) ∨
      (env.createOk = false ∧ optTruthy st.contextId = false)) :
    countStopped (runTTS env st t).2 = 1 ∧
    (runTTS env st t).1.ttfbRunning = false ∧
    (runTTS env st t).1.usageRunning = false ∧
    (runTTS env st t).1.contextId = none ∧
    (∃ e, Effect.pushError e ∈ (runTTS env st t).2) ∧
    (∀ j, Effect.send j ∉ (runTTS env st t).2) ∧
    (∀ i, Effect.createCtx i ∈ (runTTS env st t).2 →
      Effect.removeCtx i ∈ (runTTS env st t).2) := by
  have hfreshE : env.freshId.isEmpty = false := by
    cases he : env.freshId.isEmpty with
    | false => rfl
    | true => exact absurd ((String.isEmpty_iff _).mp he) hfresh
  rcases Bool.dichotomy st.websocket.isNone with hws0 | hws0
  · rw [(runTTS_eq_core env st t).1 hws0]
    apply runTTSCore_failure env st t [] hfreshE rfl (by simp) (by simp)
    rcases hfail with h | ⟨hwsn, _⟩ | ⟨hco, hot⟩
    · exact Or.inl (sendSucceeds_of_sendOk_false st env h)
    · rw [hwsn] at hws0; simp at hws0
    · exact Or.inr ⟨hco, hot⟩
  · rw [(runTTS_eq_core env st t).2 hws0]
    obtain ⟨p1, p2, p3, p4, p5⟩ := connectOp_preserves env st
    apply runTTSCore_failure env _ t _ hfreshE p4 p5 p3
    rcases hfail with h | ⟨hwsn, hok⟩ | ⟨hco, hot⟩
    · exact Or.inl (sendSucceeds_of_sendOk_false _ env h)
    · exact Or.inl (sendSucceeds_of_ws_none _ env
        (connectOp_ws_none_fail env st hwsn hok))
    · refine Or.inr ⟨hco, ?_⟩
      rw [p1]
      exact hot

/-- Witness for C4: a send failure on the idle connected service yields one
stopped frame, an error notification, a cleared context id, and the created
context is removed again. -/
theorem c4_run_tts_failure_recovery_witness :
    countStopped (runTTS { envOk with sendOk := false } stIdle "Hi").2 = 1 ∧
    (runTTS { envOk with sendOk := false } stIdle "Hi").1.contextId = none ∧
    (∃ e, Effect.pushError e ∈
      (runTTS { envOk with sendOk := false } stIdle "Hi").2) :=
  let h := c4_run_tts_failure_recovery { envOk with sendOk := false } stIdle
    "Hi" (by decide) (Or.inl rfl)
  ⟨h.1, h.2.2.2.1, h.2.2.2.2.1⟩

/-- The run_tts body preserves the single-active-context invariant. -/
theorem runTTSCore_inv (env : Env) (st1 : ServiceState) (t : String)
    (pre : List Effect) (hfresh : env.freshId.isEmpty = false)
    (hInv : singleCtxInv st1 = true) :
    singleCtxInv (runTTSCore env st1 t pre).1 = true := by
  rcases Bool.dichotomy (optTruthy st1.contextId) with hot | hot
  · obtain ⟨hcn, hctxs⟩ := inv_falsy_ctx st1 hInv hot
    rcases Bool.dichotomy env.createOk with hco | hco
    · rw [runTTSCore_fresh_nocreate env st1 t pre hot hco,
        exceptTeardown_eq "error"
          { st1 with ttfbRunning := true, contextId := some env.freshId }
          env.freshId rfl hfresh]
      apply inv_none _ rfl
      show st1.contexts.filter (fun p => !(p.1 == env.freshId)) = []
      rw [hctxs]
      rfl
    · rcases Bool.dichotomy (sendSucceeds st1 env) with hsf | hsf
      · have hsfB : sendSucceeds (createCtxOp
            { st1 with ttfbRunning := true, contextId := some env.freshId }
            env.freshId) env = false := hsf
        rw [runTTSCore_fresh_create env st1 t pre hot hco,
          (runTTSSend_cases env _ t).2 hsfB,
          exceptTeardown_eq "error sending message" _ env.freshId rfl hfresh]
        apply inv_none _ rfl
        show ((st1.contexts ++ [(env.freshId, ([] : List AudioFrame))]).filter
          (fun p => !(p.1 == env.freshId))) = []
        rw [hctxs]
        simp
      · have hsfB : sendSucceeds (createCtxOp
            { st1 with ttfbRunning := true, contextId := some env.freshId }
            env.freshId) env = true := hsf
        rw [runTTSCore_fresh_create env st1 t pre hot hco,
          (runTTSSend_cases env _ t).1 hsfB]
        have hws : st1.websocket = some true := sendSucceeds_ws st1 env hsf
        apply inv_single _ env.freshId []
        · rfl
        · exact hfresh
        · show st1.websocket.isSome = true
          rw [hws]
          rfl
        · show st1.contexts ++ [(env.freshId, [])] = [(env.freshId, [])]
          rw [hctxs]
          rfl
  · obtain ⟨c, hc, hemp⟩ := truthy_some _ hot
    obtain ⟨_, hws, hd⟩ := inv_facts st1 c hInv hc
    rcases Bool.dichotomy (sendSucceeds st1 env) with hsf | hsf
    · rw [runTTSCore_active env st1 t pre hot,
        (runTTSSend_cases env st1 t).2 hsf,
        exceptTeardown_eq "error sending message" st1 c hc hemp]
      apply inv_none _ rfl
      show st1.contexts.filter (fun p => !(p.1 == c)) = []
      rcases hd with h | ⟨b, h⟩
      · exact remove_all_of_inv _ c [] (Or.inl h)
      · exact remove_all_of_inv _ c b (Or.inr h)
    · rw [runTTSCore_active env st1 t pre hot,
        (runTTSSend_cases env st1 t).1 hsf]
      exact hInv

/-- run_tts preserves the single-active-context invariant. -/
theorem runTTS_preserves_inv (env : Env) (st : ServiceState) (t : String)
    (hfresh : env.freshId ≠ "") (hInv : singleCtxInv st = true) :
    singleCtxInv (runTTS env st t).1 = true := by
  have hfreshE : env.freshId.isEmpty = false := by
    cases he : env.freshId.isEmpty with
    | false => rfl
    | true => exact absurd ((String.isEmpty_iff _).mp he) hfresh
  rcases Bool.dichotomy st.websocket.isNone with hws0 | hws0
  · rw [(runTTS_eq_core env st t).1 hws0]
    exact runTTSCore_inv env st t [] hfreshE hInv
  · rw [(runTTS_eq_core env st t).2 hws0]
    have hwsn : st.websocket = none := by
      cases hw : st.websocket with
      | none => rfl
      | some b => rw [hw] at hws0; simp at hws0
    have hcn : st.contextId = none := by
      cases hc : st.contextId with
      | none => rfl
      | some c =>
        obtain ⟨_, hws, _⟩ := inv_facts st c hInv hc
        rw [hwsn] at hws
        simp at hws
    have hctxs := inv_none_contexts st hInv hcn
    obtain ⟨p1, p2, _, _, _⟩ := connectOp_preserves env st
    exact runTTSCore_inv env _ t _ hfreshE
      (inv_none _ (p1.trans hcn) (p2.trans hctxs))

/-- Inbound dispatch preserves the single-active-context invariant. -/
theorem processJson_preserves_inv (st : ServiceState) (m : InMsg)
    (hInv : singleCtxInv st = true) :
    singleCtxInv (processJsonMessage st m).1 = true := by
  unfold processJsonMessage
  cases hr : resolvedCtx st m with
  | none => exact hInv
  | some c =>
    cases hav : ctxAvailable st c with
    | false => simp only [hav, Bool.false_eq_true, if_false]; exact hInv
    | true =>
      obtain ⟨b, hc, hemp, hws, hctxs⟩ := avail_structure st c hInv hav
      simp only [hav, if_true]
      cases m.error with
      | some e =>
        apply inv_none _ rfl
        show st.contexts.filter (fun p => !(p.1 == c)) = []
        exact remove_all_of_inv st.contexts c b (Or.inr hctxs)
      | none =>
        dsimp only
        cases m.audio with
        | some a =>
          dsimp only
          cases hb : b64decode a with
          | some bytes =>
            apply inv_single _ c
              (b ++ [{ audio := bytes, sampleRate := st.sampleRate, numChannels := 1 }])
            · exact hc
            · exact hemp
            · exact hws
            · show st.contexts.map _ = _
              rw [hctxs]
              simp
          | none => exact hInv
        | none =>
          dsimp only
          cases hf : (m.final == some true) with
          | true =>
            simp only [hf, if_true]
            apply inv_none _ rfl
            show st.contexts.filter (fun p => !(p.1 == c)) = []
            exact remove_all_of_inv st.contexts c b (Or.inr hctxs)
          | false =>
            simp only [hf, Bool.false_eq_true, if_false]
            exact hInv

/-- Interruption preserves the single-active-context invariant. -/
theorem interruption_preserves_inv (env : Env) (st : ServiceState)
    (hInv : singleCtxInv st = true) :
    singleCtxInv (handleInterruption env st).1 = true := by
  unfold handleInterruption
  cases hc : st.contextId with
  | none =>
    apply inv_none _ rfl
    show (stopAllMetrics st).contexts = []
    exact inv_none_contexts st hInv hc
  | some c =>
    obtain ⟨hemp, hws, hd⟩ := inv_facts st c hInv hc
    have hguard : (!c.isEmpty && st.websocket.isSome) = true := by
      simp [hemp, hws]
    dsimp only
    rw [hguard]
    simp only [if_true]
    cases hss : sendSucceeds st env with
    | true =>
      simp only [if_true]
      apply inv_none _ rfl
      show st.contexts.filter (fun p => !(p.1 == c)) = []
      rcases hd with h | ⟨b, h⟩
      · exact remove_all_of_inv _ c [] (Or.inl h)
      · exact remove_all_of_inv _ c b (Or.inr h)
    | false =>
      simp only [Bool.false_eq_true, if_false]
      apply inv_none _ rfl
      show st.contexts.filter (fun p => !(p.1 == c)) = []
      rcases hd with h | ⟨b, h⟩
      · exact remove_all_of_inv _ c [] (Or.inl h)
      · exact remove_all_of_inv _ c b (Or.inr h)

/-- _disconnect_websocket preserves the single-active-context invariant. -/
theorem disconnectWebsocket_inv (st : ServiceState)
    (hInv : singleCtxInv st = true) :
    singleCtxInv (disconnectWebsocket st).1 = true := by
  unfold disconnectWebsocket
  cases hc : st.contextId with
  | none =>
    apply inv_none _ rfl
    show (stopAllMetrics st).contexts = []
    exact inv_none_contexts st hInv hc
  | some c =>
    obtain ⟨hemp, hws, hd⟩ := inv_facts st c hInv hc
    dsimp only
    cases hg : (!c.isEmpty && ctxAvailable st c) with
    | true =>
      simp only [if_true]
      apply inv_none _ rfl
      show st.contexts.filter (fun p => !(p.1 == c)) = []
      rcases hd with h | ⟨b, h⟩
      · exact remove_all_of_inv _ c [] (Or.inl h)
      · exact remove_all_of_inv _ c b (Or.inr h)
    | false =>
      simp only [Bool.false_eq_true, if_false]
      apply inv_none _ rfl
      show (stopAllMetrics st).contexts = []
      rcases hd with h | ⟨b, h⟩
      · exact h
      · exfalso
        simp only [hemp, Bool.not_false, Bool.true_and] at hg
        rw [ctxAvailable, h] at hg
        simp at hg

/-- _disconnect preserves the single-active-context invariant. -/
theorem disconnect_preserves_inv (st : ServiceState)
    (hInv : singleCtxInv st = true) :
    singleCtxInv (disconnectOp st).1 = true := by
  unfold disconnectOp
  dsimp only
  split
  · exact disconnectWebsocket_inv _ hInv
  · exact disconnectWebsocket_inv _ hInv

/-- _update_settings preserves the single-active-context invariant. -/
theorem update_preserves_inv (env : Env) (st : ServiceState)
    (u : SettingsUpdate) (hInv : singleCtxInv st = true) :
    singleCtxInv (updateSettingsOp env st u).1 = true := by
  unfold updateSettingsOp
  dsimp only
  split
  · obtain ⟨_, _, _, hwn, hcn⟩ :=
      disconnectOp_effects { st with settings := applySettings st.settings u }
    have hd := disconnect_preserves_inv
      { st with settings := applySettings st.settings u } hInv
    have hctxs := inv_none_contexts _ hd hcn
    obtain ⟨p1, p2, _, _, _⟩ :=
      connectOp_preserves env
        (disconnectOp { st with settings := applySettings st.settings u }).1
    exact inv_none _ (p1.trans hcn) (p2.trans hctxs)
  · exact hInv

/-- Inbound dispatch never creates a context. -/
theorem processJson_no_create (st : ServiceState) (m : InMsg) (i : String) :
    Effect.createCtx i ∉ (processJsonMessage st m).2 := by
  unfold processJsonMessage
  cases hr : resolvedCtx st m with
  | none => simp
  | some c =>
    cases hav : ctxAvailable st c with
    | false => simp [hav]
    | true =>
      simp only [hav, if_true]
      cases m.error with
      | some e => simp
      | none =>
        dsimp only
        cases m.audio with
        | some a =>
          dsimp only
          cases hb : b64decode a with
          | some bytes => simp [hb]
          | none => simp [hb]
        | none =>
          dsimp only
          cases hf : (m.final == some true) with
          | true => simp [hf]
          | false => simp [hf]

/-- Interruption never creates a context. -/
theorem interruption_no_create (env : Env) (st : ServiceState) (i : String) :
    Effect.createCtx i ∉ (handleInterruption env st).2 := by
  unfold handleInterruption
  cases hc : st.contextId with
  | none => simp
  | some c =>
    dsimp only
    cases hg : (!c.isEmpty && st.websocket.isSome) with
    | false => simp [hg]
    | true =>
      cases hss : sendSucceeds st env with
      | true => simp [hg, hss]
      | false => simp [hg, hss]

/-- _disconnect_websocket never creates a context. -/
theorem disconnectWebsocket_no_create (st : ServiceState) (i : String) :
    Effect.createCtx i ∉ (disconnectWebsocket st).2 := by
  unfold disconnectWebsocket
  cases hws : st.websocket.isSome with
  | true =>
    cases hc : st.contextId with
    | none => simp [hws]
    | some c =>
      dsimp only
      cases hg : (!c.isEmpty && ctxAvailable st c) with
      | true => simp [hws, hg]
      | false => simp [hws, hg]
  | false =>
    cases hc : st.contextId with
    | none => simp [hws]
    | some c =>
      dsimp only
      cases hg : (!c.isEmpty && ctxAvailable st c) with
      | true => simp [hws, hg]
      | false => simp [hws, hg]

/-- _disconnect never creates a context. -/
theorem disconnect_no_create (st : ServiceState) (i : String) :
    Effect.createCtx i ∉ (disconnectOp st).2 := by
  unfold disconnectOp
  dsimp only
  split
  · intro h
    rcases List.mem_append.mp h with h | h
    · simp at h
    · exact disconnectWebsocket_no_create _ i h
  · intro h
    rcases List.mem_append.mp h with h | h
    · simp at h
    · exact disconnectWebsocket_no_create _ i h

/-- _update_settings never creates a context. -/
theorem update_no_create (env : Env) (st : ServiceState) (u : SettingsUpdate)
    (i : String) : Effect.createCtx i ∉ (updateSettingsOp env st u).2 := by
  unfold updateSettingsOp
  dsimp only
  split
  · intro h
    rcases List.mem_append.mp h with h | h
    · exact disconnect_no_create _ i h
    · exact (connectOp_preserves env _).2.2.1 i h
  · simp

/-- Under the invariant, run_tts creates a context only from the idle state
(falsy tracked id, empty registry). -/
theorem runTTS_create_only_idle (env : Env) (st : ServiceState) (t : String)
    (hInv : singleCtxInv st = true) :
    ∀ i, Effect.createCtx i ∈ (runTTS env st t).2 →
      st.contexts = [] ∧ optTruthy st.contextId = false := by
  intro i hi
  rcases Bool.dichotomy (optTruthy st.contextId) with hot | hot
  · exact ⟨(inv_falsy_ctx st hInv hot).2, hot⟩
  · exfalso
    obtain ⟨c, hc, hemp⟩ := truthy_some _ hot
    obtain ⟨_, hws, _⟩ := inv_facts st c hInv hc
    have hws0 : st.websocket.isNone = false := by
      cases hw : st.websocket with
      | none => rw [hw] at hws; simp at hws
      | some b => rfl
    rw [(runTTS_eq_core env st t).1 hws0,
      runTTSCore_active env st t [] hot] at hi
    rcases List.mem_append.mp hi with h | h
    · rcases List.mem_append.mp h with h2 | h2
      · cases h2
      · simp at h2
    · exact runTTSSend_no_create env st t i h

/-- Claim C2: every operation of the service (run_tts, inbound dispatch,
interruption, disconnect, settings update) preserves the single-active-
context invariant (at most one registered context, which is the tracked one,
with a connection object while a context exists); a context is created only
by run_tts and only when the tracked id is falsy and the registry is empty,
so create_audio_context is never invoked while a context already exists. -/
theorem c2_single_active_context (env : Env) (st : ServiceState) (t : String)
    (m : InMsg) (u : SettingsUpdate)
    (hfresh : env.freshId ≠ "") (hInv : singleCtxInv st = true) :
    singleCtxInv (runTTS env st t).1 = true ∧
    singleCtxInv (processJsonMessage st m).1 = true ∧
    singleCtxInv (handleInterruption env st).1 = true ∧
    singleCtxInv (disconnectOp st).1 = true ∧
    singleCtxInv (updateSettingsOp env st u).1 = true ∧
    (∀ i, Effect.createCtx i ∈ (runTTS env st t).2 →
      st.contexts = [] ∧ optTruthy st.contextId = false) ∧
    (∀ i, Effect.createCtx i ∉ (processJsonMessage st m).2) ∧
    (∀ i, Effect.createCtx i ∉ (handleInterruption env st).2) ∧
    (∀ i, Effect.createCtx i ∉ (disconnectOp st).2) ∧
    (∀ i, Effect.createCtx i ∉ (updateSettingsOp env st u).2) :=
  ⟨runTTS_preserves_inv env st t hfresh hInv,
   processJson_preserves_inv st m hInv,
   interruption_preserves_inv env st hInv,
   disconnect_preserves_inv st hInv,
   update_preserves_inv env st u hInv,
   runTTS_create_only_idle env st t hInv,
   fun i => processJson_no_create st m i,
   fun i => interruption_no_create env st i,
   fun i => disconnect_no_create st i,
   fun i => update_no_create env st u i⟩

/-- Witness for C2: on the active connected service, running a synthesis
turn, dispatching a final message, interrupting and disconnecting all keep
the invariant, and the turn creates no context since one is active. -/
theorem c2_single_active_context_witness :
    singleCtxInv (runTTS envOk stActive "Hi").1 = true ∧
    singleCtxInv (processJsonMessage stActive
      { ctx := CtxField.absent, error := none, audio := none,
        final := some true }).1 = true ∧
    singleCtxInv (handleInterruption envOk stActive).1 = true ∧
    singleCtxInv (disconnectOp stActive).1 = true ∧
    (∀ i, Effect.createCtx i ∈ (runTTS envOk stActive "Hi").2 →
      stActive.contexts = [] ∧ optTruthy stActive.contextId = false) :=
  let h := c2_single_active_context envOk stActive "Hi"
    { ctx := CtxField.absent, error := none, audio := none,
      final := some true }
    uStyle (by decide) (by decide)
  ⟨h.1, h.2.1, h.2.2.1, h.2.2.2.1, h.2.2.2.2.2.1⟩

/-- run_tts from a state with a falsy tracked id always invokes
create_audio_context with the fresh identifier. -/
theorem runTTS_creates_when_idle (env : Env) (st : ServiceState) (t : String)
    (hot : optTruthy st.contextId = false) :
    Effect.createCtx env.freshId ∈ (runTTS env st t).2 := by
  rcases Bool.dichotomy st.websocket.isNone with hws0 | hws0
  · rw [(runTTS_eq_core env st t).1 hws0]
    rcases Bool.dichotomy env.createOk with hco | hco
    · rw [runTTSCore_fresh_nocreate env st t [] hot hco]
      simp
    · rw [runTTSCore_fresh_create env st t [] hot hco]
      simp
  · rw [(runTTS_eq_core env st t).2 hws0]
    have hot1 : optTruthy (connectOp env st).1.contextId = false := by
      rw [(connectOp_preserves env st).1]
      exact hot
    rcases Bool.dichotomy env.createOk with hco | hco
    · rw [runTTSCore_fresh_nocreate env _ t _ hot1 hco]
      simp
    · rw [runTTSCore_fresh_create env _ t _ hot1 hco]
      simp

/-- The consequences of a terminal (error or final) teardown: the context is
gone, the id cleared, timers stopped, a duplicate of the same message is a
no-op, and a subsequent run_tts allocates a context under the fresh
identifier. -/
theorem teardown_consequences (env : Env) (st : ServiceState) (m : InMsg)
    (t c : String) (effs : List Effect)
    (hres : resolvedCtx st m = some c)
    (hmain : processJsonMessage st m =
      ({ removeCtxOp (stopAllMetrics st) c with contextId := none }, effs)) :
    ctxAvailable (processJsonMessage st m).1 c = false ∧
    (processJsonMessage st m).1.contextId = none ∧
    (processJsonMessage st m).1.ttfbRunning = false ∧
    (processJsonMessage st m).1.usageRunning = false ∧
    processJsonMessage (processJsonMessage st m).1 m =
      ((processJsonMessage st m).1, []) ∧
    Effect.createCtx env.freshId ∈
      (runTTS env (processJsonMessage st m).1 t).2 := by
  have h1 : ctxAvailable (processJsonMessage st m).1 c = false := by
    rw [hmain]
    exact ctxAvailable_removeCtxOp (stopAllMetrics st) c
  have h2 : (processJsonMessage st m).1.contextId = none := by
    rw [hmain]
  refine ⟨h1, h2, by simp [hmain, removeCtxOp, stopAllMetrics],
    by simp [hmain, removeCtxOp, stopAllMetrics], ?_, ?_⟩
  · apply processJson_stale_eq
    unfold staleFor
    cases hmc : m.ctx with
    | absent => simp [resolvedCtx, hmc, h2]
    | nonStr => simp [resolvedCtx, hmc]
    | str s =>
      have hs : s = c := by
        unfold resolvedCtx at hres
        rw [hmc] at hres
        exact Option.some.inj hres
      subst hs
      simp [resolvedCtx, hmc, h1]
  · apply runTTS_creates_when_idle
    rw [h2]
    rfl

/-- Claim C3: on an available context, inbound dispatch follows the
precedence error, then audio, then final, then unknown: an error-bearing
message tears the context down with exactly one stopped frame and one error
notification; an audio-bearing message (error absent) never yields a stopped
frame; a final-true message (error and audio absent) tears down with exactly
one stopped frame; anything else is ignored; after a terminal teardown the
metrics are stopped, the context is unavailable, the tracked id is cleared, a
duplicate of the same message yields nothing, and a subsequent run_tts call
allocates a context under the fresh identifier, which differs from the torn
down one. -/
theorem c3_terminal_dispatch (env : Env) (st : ServiceState) (m : InMsg)
    (t : String) (c : String)
    (hres : resolvedCtx st m = some c) (havail : ctxAvailable st c = true)
    (hfresh : env.freshId ≠ c) :
    (∀ e, m.error = some e →
      processJsonMessage st m =
        ({ removeCtxOp (stopAllMetrics st) c with contextId := none },
         [Effect.frame Frame.stopped, Effect.pushError e,
          Effect.removeCtx c])) ∧
    (m.error = none → ∀ a, m.audio = some a →
      countStopped (processJsonMessage st m).2 = 0) ∧
    (m.error = none → m.audio = none → m.final = some true →
      processJsonMessage st m =
        ({ removeCtxOp (stopAllMetrics st) c with contextId := none },
         [Effect.frame Frame.stopped, Effect.removeCtx c])) ∧
    (m.error = none → m.audio = none → m.final ≠ some true →
      processJsonMessage st m = (st, [])) ∧
    ((m.error ≠ none ∨ (m.audio = none ∧ m.final = some true)) →
      countStopped (processJsonMessage st m).2 = 1 ∧
      (processJsonMessage st m).1.ttfbRunning = false ∧
      (processJsonMessage st m).1.usageRunning = false ∧
      ctxAvailable (processJsonMessage st m).1 c = false ∧
      (processJsonMessage st m).1.contextId = none ∧
      processJsonMessage (processJsonMessage st m).1 m =
        ((processJsonMessage st m).1, []) ∧
      Effect.createCtx env.freshId ∈
        (runTTS env (processJsonMessage st m).1 t).2 ∧
      env.freshId ≠ c) := by
  have herrEq : ∀ e, m.error = some e →
      processJsonMessage st m =
        ({ removeCtxOp (stopAllMetrics st) c with contextId := none },
         [Effect.frame Frame.stopped, Effect.pushError e,
          Effect.removeCtx c]) := by
    intro e he
    unfold processJsonMessage
    rw [hres]
    simp only [havail, if_true, he]
  have hfinEq : m.error = none → m.audio = none → m.final = some true →
      processJsonMessage st m =
        ({ removeCtxOp (stopAllMetrics st) c with contextId := none },
         [Effect.frame Frame.stopped, Effect.removeCtx c]) := by
    intro h1 h2 h3
    unfold processJsonMessage
    rw [hres]
    simp only [havail, if_true, h1, h2, h3]
    simp
  refine ⟨herrEq, ?_, hfinEq, ?_, ?_⟩
  · intro h1 a h2
    unfold processJsonMessage
    rw [hres]
    simp only [havail, if_true, h1, h2]
    cases hb : b64decode a with
    | some bytes => simp [hb, countStopped, isStoppedEff]
    | none => simp [hb, countStopped]
  · intro h1 h2 h3
    have hf : (m.final == some true) = false := by
      cases hfv : m.final with
      | none => rfl
      | some b =>
        cases b with
        | true => exact absurd hfv h3
        | false => rfl
    unfold processJsonMessage
    rw [hres]
    simp only [havail, if_true, h1, h2, hf]
    simp [hf]
  · intro hterm
    have hmain : ∃ effs, countStopped effs = 1 ∧
        processJsonMessage st m =
          ({ removeCtxOp (stopAllMetrics st) c with contextId := none },
           effs) := by
      rcases hterm with he | ⟨h2, h3⟩
      · cases hev : m.error with
        | none => exact absurd hev he
        | some e =>
          exact ⟨[Effect.frame Frame.stopped, Effect.pushError e,
            Effect.removeCtx c], rfl, herrEq e hev⟩
      · cases hev : m.error with
        | some e =>
          exact ⟨[Effect.frame Frame.stopped, Effect.pushError e,
            Effect.removeCtx c], rfl, herrEq e hev⟩
        | none =>
          exact ⟨[Effect.frame Frame.stopped, Effect.removeCtx c], rfl,
            hfinEq hev h2 h3⟩
    obtain ⟨effs, hcount, hmain⟩ := hmain
    obtain ⟨k1, k2, k3, k4, k5, k6⟩ :=
      teardown_consequences env st m t c effs hres hmain
    refine ⟨?_, k3, k4, k1, k2, k5, k6, hfresh⟩
    rw [hmain]
    exact hcount

/-- Witness for C3: an error-bearing message for the active context c1 wins
the dispatch precedence over its audio payload, yields exactly one stopped
frame and tears the context down, after which a new run_tts call creates a
context under the fresh identifier f1. -/
theorem c3_terminal_dispatch_witness :
    processJsonMessage stActive
      { ctx := CtxField.str "c1", error := some "boom",
        audio := some "QUJD", final := some false } =
      ({ removeCtxOp (stopAllMetrics stActive) "c1" with contextId := none },
       [Effect.frame Frame.stopped, Effect.pushError "boom",
        Effect.removeCtx "c1"]) ∧
    countStopped (processJsonMessage stActive
      { ctx := CtxField.str "c1", error := some "boom",
        audio := some "QUJD", final := some false }).2 = 1 ∧
    Effect.createCtx "f1" ∈
      (runTTS envOk (processJsonMessage stActive
        { ctx := CtxField.str "c1", error := some "boom",
          audio := some "QUJD", final := some false }).1 "next").2 :=
  let h := c3_terminal_dispatch envOk stActive
    { ctx := CtxField.str "c1", error := some "boom",
      audio := some "QUJD", final := some false }
    "next" "c1" rfl rfl (by decide)
  let h5 := h.2.2.2.2 (Or.inl (by simp))
  ⟨h.1 "boom" rfl, h5.1, h5.2.2.2.2.2.2.1⟩

/-- Claim C10: flush_audio is a guarded no-op: with a falsy context id or no
websocket object it returns immediately with no effects; otherwise it leaves
the whole state (tracked id and registry included) unchanged and sends
exactly the end-of-turn message when the send succeeds, while a failing send
is caught and produces no effect; it never raises. -/
theorem c10_flush_audio_guarded (env : Env) (st : ServiceState) :
    ((optTruthy st.contextId = false ∨ st.websocket = none) →
      flushAudio env st = (st, [])) ∧
    (∀ c, st.contextId = some c → c.isEmpty = false → st.websocket.isSome = true →
      (flushAudio env st).1 = st ∧
      (sendSucceeds st env = true →
        (flushAudio env st).2 = [Effect.send (endMsg c)]) ∧
      (sendSucceeds st env = false → (flushAudio env st).2 = [])) := by
  constructor
  · intro h
    unfold flushAudio
    rcases h with h | h
    · simp [h]
    · simp [h]
  · intro c hc hemp hws
    have htr : optTruthy st.contextId = true := by
      rw [hc]; simp [optTruthy, hemp]
    have hnn : st.websocket.isNone = false := by
      cases hw : st.websocket with
      | none => rw [hw] at hws; exact absurd hws (by decide)
      | some b => rfl
    unfold flushAudio
    rw [htr, hnn, hc]
    cases hs : sendSucceeds st env with
    | true => simp
    | false => simp

/-- Witness for C10: on the active connected state the end-of-turn message
for context c1 is the only effect, and the state is unchanged. -/
theorem c10_flush_audio_guarded_witness :
    (flushAudio envOk stActive).1 = stActive ∧
    (flushAudio envOk stActive).2 = [Effect.send (endMsg "c1")] :=
  let h := (c10_flush_audio_guarded envOk stActive).2 "c1" rfl rfl rfl
  ⟨h.1, h.2.1 rfl⟩

end MurfTTS
